import Mathlib

/-!
# k8s.io/api/networking/v1alpha1 — the wire contract of `types.go`

`types.go` declares seventeen records and nothing else: every field carries a
struct tag (`json:"…"`, `protobuf:"…"`, and for condition lists
`patchStrategy`/`patchMergeKey`) and a documentation marker (`+optional`,
`+required`, `+listType`, `+listMapKey`).

The development has three layers.

* `FieldTag` tables: a literal transcription of each field's tag and markers.
* Go values: one Lean structure per record.  A Go slice `[]T` is
  `Option (List T)` (`none` is the nil slice, `some []` the empty non-nil one),
  a pointer `*T` is `Option T`, `bool` is `Bool`, and `string` is `GoString`,
  a list of bytes: a Go string need not be valid UTF-8.
* The JSON reading of the tags, as Go's `encoding/json` gives it: a field
  tagged `omitempty` is left out when its value is `false`, a nil pointer, or
  a slice or string of length zero (a struct value is never left out); a
  string is written as JSON text, each byte that does not start a well-formed
  UTF-8 sequence becoming U+FFFD; an embedded field with no JSON name has its
  fields promoted into the enclosing object; on decoding, a JSON string is
  read as its UTF-8 bytes, an absent name or a JSON `null` leaves the Go zero
  value, an unknown name is skipped, and a value of the wrong JSON kind is an
  error.  Names are matched exactly, as the Kubernetes decoder does (Go's own
  would also take a name that differs in letter case).  An object that repeats
  a name is read at its last binding; the real decoder applies repeated members
  one after the other, which can differ, and the round-trip statements concern
  serialized objects, which repeat no name.

The four `metav1` types the records embed (`TypeMeta`, `ObjectMeta`,
`ListMeta`, `Condition`) are declared in another package; they enter as the
parameter `MetaV1`, of whose codecs nothing is assumed.
-/

namespace NetworkingV1alpha1

/-! ## JSON values -/

/-- A JSON value; an object is its list of members in order. -/
inductive Json where
  | null
  | bool (b : Bool)
  | num (n : Int)
  | str (s : String)
  | arr (xs : List Json)
  | obj (kvs : List (String × Json))

/-- The value bound to `k` in a member list; the last binding wins. -/
def getField : List (String × Json) → String → Option Json
  | [], _ => none
  | (k', v) :: rest, k =>
    match getField rest k with
    | some w => some w
    | none => if k' = k then some v else none

/-- Whether `k` is a member name of the object `j` (false when `j` is not an object). -/
def Json.hasKey (k : String) : Json → Bool
  | .obj kvs => kvs.any (fun kv => decide (kv.1 = k))
  | _ => false

/-! ## Go strings

A Go `string` is a byte string.  `encoding/json` writes it as JSON text by
walking it rune by rune with `utf8.DecodeRuneInString`; a byte that does not
start a well-formed sequence is written as U+FFFD and the walk moves on by one
byte.  Reading a JSON string back gives the UTF-8 encoding of its text. -/

abbrev Byte := Fin 256

abbrev GoString := List Byte

/-- The UTF-8 encoding of one character (`utf8.AppendRune`). -/
def utf8Bytes (c : Char) : List Byte :=
  let i := c.toNat
  if i < 0x80 then [Fin.ofNat i]
  else if i < 0x800 then [Fin.ofNat (0xC0 + i / 64), Fin.ofNat (0x80 + i % 64)]
  else if i < 0x10000 then
    [Fin.ofNat (0xE0 + i / 4096), Fin.ofNat (0x80 + i / 64 % 64), Fin.ofNat (0x80 + i % 64)]
  else
    [Fin.ofNat (0xF0 + i / 262144), Fin.ofNat (0x80 + i / 4096 % 64),
      Fin.ofNat (0x80 + i / 64 % 64), Fin.ofNat (0x80 + i % 64)]

def encodeRunes : List Char → GoString
  | [] => []
  | c :: cs => utf8Bytes c ++ encodeRunes cs

/-- The Go string a JSON string decodes to: the UTF-8 bytes of its text. -/
def goString (s : String) : GoString := encodeRunes s.data

def inRange (lo hi : Nat) (b : Byte) : Bool := decide (lo ≤ b.val) && decide (b.val ≤ hi)

/-- The least second byte accepted after the lead byte `b0` (`acceptRanges`). -/
def secondLo (b0 : Byte) : Nat :=
  if b0.val = 0xE0 then 0xA0 else if b0.val = 0xF0 then 0x90 else 0x80

/-- The greatest second byte accepted after the lead byte `b0` (`acceptRanges`). -/
def secondHi (b0 : Byte) : Nat :=
  if b0.val = 0xED then 0x9F else if b0.val = 0xF4 then 0x8F else 0xBF

/-- The rune at the head of the non-empty string `b0 :: t0` and its width in
bytes, as `utf8.DecodeRuneInString` returns them: `(U+FFFD, 1)` when the head
is not the start of a well-formed sequence. -/
def decodeRune (b0 : Byte) (t0 : List Byte) : Nat × Nat :=
  if b0.val < 0x80 then (b0.val, 1)
  else if inRange 0xC2 0xDF b0 then
    match t0 with
    | b1 :: _ =>
      if inRange 0x80 0xBF b1 then (b0.val % 32 * 64 + b1.val % 64, 2) else (0xFFFD, 1)
    | _ => (0xFFFD, 1)
  else if inRange 0xE0 0xEF b0 then
    match t0 with
    | b1 :: b2 :: _ =>
      if inRange (secondLo b0) (secondHi b0) b1 && inRange 0x80 0xBF b2 then
        (b0.val % 16 * 4096 + b1.val % 64 * 64 + b2.val % 64, 3)
      else (0xFFFD, 1)
    | _ => (0xFFFD, 1)
  else if inRange 0xF0 0xF4 b0 then
    match t0 with
    | b1 :: b2 :: b3 :: _ =>
      if inRange (secondLo b0) (secondHi b0) b1 && inRange 0x80 0xBF b2 &&
          inRange 0x80 0xBF b3 then
        (b0.val % 8 * 262144 + b1.val % 64 * 4096 + b2.val % 64 * 64 + b3.val % 64, 4)
      else (0xFFFD, 1)
    | _ => (0xFFFD, 1)
  else (0xFFFD, 1)

/-- Whether the head of `b0 :: t0` is malformed: the test `c == utf8.RuneError && size == 1`. -/
def badHead (b0 : Byte) (t0 : List Byte) : Bool :=
  decide ((decodeRune b0 t0).1 = 0xFFFD) && decide ((decodeRune b0 t0).2 = 1)

/-- The runes of the JSON text of a Go string once `k` more bytes, the rest of the
rune just read, have been passed over: the loop `i += size` of the encoder. -/
def jsonRunesFrom : Nat → GoString → List Char
  | _, [] => []
  | k + 1, _ :: t => jsonRunesFrom k t
  | 0, b0 :: t0 =>
    Char.ofNat (decodeRune b0 t0).1 :: jsonRunesFrom ((decodeRune b0 t0).2 - 1) t0

/-- The JSON text the encoder writes for a Go string. -/
def jsonText (s : GoString) : String := String.mk (jsonRunesFrom 0 s)

/-- No head met by the walk of `jsonRunesFrom` is malformed. -/
def validFrom : Nat → GoString → Bool
  | _, [] => true
  | k + 1, _ :: t => validFrom k t
  | 0, b0 :: t0 => !badHead b0 t0 && validFrom ((decodeRune b0 t0).2 - 1) t0

/-- The string is valid UTF-8 (`utf8.ValidString`). -/
def validUTF8 (s : GoString) : Bool := validFrom 0 s

/-! ## Field tags -/

/-- The documentation marker above a field: `+optional`, `+required`, or none. -/
inductive DocMarker where
  | optional
  | required
  | unmarked
  deriving DecidableEq, Repr

/-- The four parts of a tag `protobuf:"bytes,2,opt,name=spec"`. -/
structure ProtoTag where
  wireType : String
  number : Nat
  label : String
  name : String
  deriving DecidableEq, Repr

/-- One field of a record as `types.go` declares it. -/
structure FieldTag where
  goName : String
  goType : String
  /-- The name part of the `json` tag; empty for `json:",inline"`. -/
  jsonName : String
  /-- The `json` tag is `",inline"`: an embedded field whose fields are promoted. -/
  inlined : Bool
  omitempty : Bool
  patchStrategy : Option String
  patchMergeKey : Option String
  protobuf : Option ProtoTag
  marker : DocMarker
  listType : Option String
  listMapKey : Option String
  deriving DecidableEq, Repr

/-- The tag `json:",inline"` of an embedded `metav1.TypeMeta`. -/
def inlineTag (goName goType : String) : FieldTag :=
  ⟨goName, goType, "", true, false, none, none, none, .unmarked, none, none⟩

/-- The tag `json:"<jsonName>[,omitempty]" protobuf:"bytes,<n>,<label>,name=<pbName>"`. -/
def fieldTag (goName goType jsonName : String) (omitempty : Bool)
    (n : Nat) (label pbName : String) (marker : DocMarker) : FieldTag :=
  ⟨goName, goType, jsonName, false, omitempty, none, none,
    some ⟨"bytes", n, label, pbName⟩, marker, none, none⟩

/-- The tag of a condition list: a `fieldTag` with `patchStrategy`, `patchMergeKey`
and the `+listType`/`+listMapKey` markers. -/
def conditionsTag (goName goType jsonName : String) (omitempty : Bool)
    (strategy mergeKey : String) (n : Nat) (label pbName : String)
    (marker : DocMarker) (listType listMapKey : String) : FieldTag :=
  ⟨goName, goType, jsonName, false, omitempty, some strategy, some mergeKey,
    some ⟨"bytes", n, label, pbName⟩, marker, some listType, some listMapKey⟩

/-! ### The tables, in declaration order (types.go lines 35–319) -/

namespace Tags

def IPAddress_TypeMeta : FieldTag := inlineTag "TypeMeta" "metav1.TypeMeta"
def IPAddress_ObjectMeta : FieldTag :=
  fieldTag "ObjectMeta" "metav1.ObjectMeta" "metadata" true 1 "opt" "metadata" .optional
def IPAddress_Spec : FieldTag :=
  fieldTag "Spec" "IPAddressSpec" "spec" true 2 "opt" "spec" .optional

def IPAddressSpec_ParentRef : FieldTag :=
  fieldTag "ParentRef" "*ParentReference" "parentRef" true 1 "opt" "parentRef" .required

def ParentReference_Group : FieldTag :=
  fieldTag "Group" "string" "group" true 1 "opt" "group" .optional
def ParentReference_Resource : FieldTag :=
  fieldTag "Resource" "string" "resource" true 2 "opt" "resource" .required
def ParentReference_Namespace : FieldTag :=
  fieldTag "Namespace" "string" "namespace" true 3 "opt" "namespace" .optional
def ParentReference_Name : FieldTag :=
  fieldTag "Name" "string" "name" true 4 "opt" "name" .required

def IPAddressList_TypeMeta : FieldTag := inlineTag "TypeMeta" "metav1.TypeMeta"
def IPAddressList_ListMeta : FieldTag :=
  fieldTag "ListMeta" "metav1.ListMeta" "metadata" true 1 "opt" "metadata" .optional
def IPAddressList_Items : FieldTag :=
  fieldTag "Items" "[]IPAddress" "items" false 2 "rep" "items" .unmarked

def ServiceCIDR_TypeMeta : FieldTag := inlineTag "TypeMeta" "metav1.TypeMeta"
def ServiceCIDR_ObjectMeta : FieldTag :=
  fieldTag "ObjectMeta" "metav1.ObjectMeta" "metadata" true 1 "opt" "metadata" .optional
def ServiceCIDR_Spec : FieldTag :=
  fieldTag "Spec" "ServiceCIDRSpec" "spec" true 2 "opt" "spec" .optional
def ServiceCIDR_Status : FieldTag :=
  fieldTag "Status" "ServiceCIDRStatus" "status" true 3 "opt" "status" .optional

def ServiceCIDRSpec_CIDRs : FieldTag :=
  fieldTag "CIDRs" "[]string" "cidrs" true 1 "opt" "cidrs" .optional

def ServiceCIDRStatus_Conditions : FieldTag :=
  conditionsTag "Conditions" "[]metav1.Condition" "conditions" true "merge" "type"
    1 "rep" "conditions" .optional "map" "type"

def ServiceCIDRList_TypeMeta : FieldTag := inlineTag "TypeMeta" "metav1.TypeMeta"
def ServiceCIDRList_ListMeta : FieldTag :=
  fieldTag "ListMeta" "metav1.ListMeta" "metadata" true 1 "opt" "metadata" .optional
def ServiceCIDRList_Items : FieldTag :=
  fieldTag "Items" "[]ServiceCIDR" "items" false 2 "rep" "items" .unmarked

def PodNetwork_TypeMeta : FieldTag := inlineTag "TypeMeta" "metav1.TypeMeta"
def PodNetwork_ObjectMeta : FieldTag :=
  fieldTag "ObjectMeta" "metav1.ObjectMeta" "metadata" true 1 "opt" "metadata" .optional
def PodNetwork_Spec : FieldTag :=
  fieldTag "Spec" "PodNetworkSpec" "spec" true 2 "opt" "spec" .optional
def PodNetwork_Status : FieldTag :=
  fieldTag "Status" "PodNetworkStatus" "status" true 3 "opt" "status" .optional

def PodNetworkSpec_Enabled : FieldTag :=
  fieldTag "Enabled" "bool" "enabled" true 1 "opt" "enabled" .optional
def PodNetworkSpec_ParametersRefs : FieldTag :=
  fieldTag "ParametersRefs" "[]ParametersRef" "parametersRefs" true 2 "opt" "parametersRefs"
    .optional
def PodNetworkSpec_Provider : FieldTag :=
  fieldTag "Provider" "string" "provider" true 3 "opt" "provider" .optional

def ParametersRef_Group : FieldTag :=
  fieldTag "Group" "string" "group" false 1 "opt" "group" .unmarked
def ParametersRef_Kind : FieldTag :=
  fieldTag "Kind" "string" "kind" false 2 "opt" "kind" .unmarked
def ParametersRef_Name : FieldTag :=
  fieldTag "Name" "string" "name" false 3 "opt" "name" .unmarked
def ParametersRef_Namespace : FieldTag :=
  fieldTag "Namespace" "string" "namespace" true 4 "opt" "namespace" .optional

def PodNetworkStatus_Conditions : FieldTag :=
  conditionsTag "Conditions" "[]metav1.Condition" "conditions" true "merge" "type"
    1 "req" "conditions" .optional "map" "type"

def PodNetworkList_TypeMeta : FieldTag := inlineTag "TypeMeta" "metav1.TypeMeta"
def PodNetworkList_ListMeta : FieldTag :=
  fieldTag "ListMeta" "metav1.ListMeta" "metadata" true 1 "opt" "metadata" .optional
def PodNetworkList_Items : FieldTag :=
  fieldTag "Items" "[]PodNetwork" "items" false 2 "rep" "items" .unmarked

def PodNetworkAttachment_TypeMeta : FieldTag := inlineTag "TypeMeta" "metav1.TypeMeta"
def PodNetworkAttachment_ObjectMeta : FieldTag :=
  fieldTag "ObjectMeta" "metav1.ObjectMeta" "metadata" true 1 "opt" "metadata" .optional
def PodNetworkAttachment_Spec : FieldTag :=
  fieldTag "Spec" "PodNetworkAttachmentSpec" "spec" true 2 "opt" "spec" .optional
def PodNetworkAttachment_Status : FieldTag :=
  fieldTag "Status" "PodNetworkAttachmentStatus" "status" true 3 "opt" "status" .optional

def PodNetworkAttachmentSpec_PodNetworkName : FieldTag :=
  fieldTag "PodNetworkName" "string" "podNetworkName" false 1 "req" "podNetworkName" .required
def PodNetworkAttachmentSpec_ParametersRefs : FieldTag :=
  fieldTag "ParametersRefs" "[]ParametersRef" "parametersRefs" true 2 "opt" "parametersRefs"
    .optional

def PodNetworkAttachmentStatus_Conditions : FieldTag :=
  conditionsTag "Conditions" "[]metav1.Condition" "conditions" true "merge" "type"
    1 "req" "conditions" .optional "map" "type"

def PodNetworkAttachmentList_TypeMeta : FieldTag := inlineTag "TypeMeta" "metav1.TypeMeta"
def PodNetworkAttachmentList_ListMeta : FieldTag :=
  fieldTag "ListMeta" "metav1.ListMeta" "metadata" true 1 "opt" "metadata" .optional
def PodNetworkAttachmentList_Items : FieldTag :=
  fieldTag "Items" "[]PodNetworkAttachment" "items" false 2 "rep" "items" .unmarked

end Tags

open Tags

/-- A declared record: its Go name and its fields in declaration order. -/
structure RecordDecl where
  name : String
  fields : List FieldTag
  deriving DecidableEq, Repr

def declIPAddress : RecordDecl :=
  ⟨"IPAddress", [IPAddress_TypeMeta, IPAddress_ObjectMeta, IPAddress_Spec]⟩
def declIPAddressSpec : RecordDecl :=
  ⟨"IPAddressSpec", [IPAddressSpec_ParentRef]⟩
def declParentReference : RecordDecl :=
  ⟨"ParentReference", [ParentReference_Group, ParentReference_Resource,
    ParentReference_Namespace, ParentReference_Name]⟩
def declIPAddressList : RecordDecl :=
  ⟨"IPAddressList", [IPAddressList_TypeMeta, IPAddressList_ListMeta, IPAddressList_Items]⟩
def declServiceCIDR : RecordDecl :=
  ⟨"ServiceCIDR", [ServiceCIDR_TypeMeta, ServiceCIDR_ObjectMeta, ServiceCIDR_Spec,
    ServiceCIDR_Status]⟩
def declServiceCIDRSpec : RecordDecl :=
  ⟨"ServiceCIDRSpec", [ServiceCIDRSpec_CIDRs]⟩
def declServiceCIDRStatus : RecordDecl :=
  ⟨"ServiceCIDRStatus", [ServiceCIDRStatus_Conditions]⟩
def declServiceCIDRList : RecordDecl :=
  ⟨"ServiceCIDRList", [ServiceCIDRList_TypeMeta, ServiceCIDRList_ListMeta,
    ServiceCIDRList_Items]⟩
def declPodNetwork : RecordDecl :=
  ⟨"PodNetwork", [PodNetwork_TypeMeta, PodNetwork_ObjectMeta, PodNetwork_Spec,
    PodNetwork_Status]⟩
def declPodNetworkSpec : RecordDecl :=
  ⟨"PodNetworkSpec", [PodNetworkSpec_Enabled, PodNetworkSpec_ParametersRefs,
    PodNetworkSpec_Provider]⟩
def declParametersRef : RecordDecl :=
  ⟨"ParametersRef", [ParametersRef_Group, ParametersRef_Kind, ParametersRef_Name,
    ParametersRef_Namespace]⟩
def declPodNetworkStatus : RecordDecl :=
  ⟨"PodNetworkStatus", [PodNetworkStatus_Conditions]⟩
def declPodNetworkList : RecordDecl :=
  ⟨"PodNetworkList", [PodNetworkList_TypeMeta, PodNetworkList_ListMeta, PodNetworkList_Items]⟩
def declPodNetworkAttachment : RecordDecl :=
  ⟨"PodNetworkAttachment", [PodNetworkAttachment_TypeMeta, PodNetworkAttachment_ObjectMeta,
    PodNetworkAttachment_Spec, PodNetworkAttachment_Status]⟩
def declPodNetworkAttachmentSpec : RecordDecl :=
  ⟨"PodNetworkAttachmentSpec", [PodNetworkAttachmentSpec_PodNetworkName,
    PodNetworkAttachmentSpec_ParametersRefs]⟩
def declPodNetworkAttachmentStatus : RecordDecl :=
  ⟨"PodNetworkAttachmentStatus", [PodNetworkAttachmentStatus_Conditions]⟩
def declPodNetworkAttachmentList : RecordDecl :=
  ⟨"PodNetworkAttachmentList", [PodNetworkAttachmentList_TypeMeta,
    PodNetworkAttachmentList_ListMeta, PodNetworkAttachmentList_Items]⟩

/-- Every record `types.go` declares, in declaration order. -/
def declaredRecords : List RecordDecl :=
  [declIPAddress, declIPAddressSpec, declParentReference, declIPAddressList,
   declServiceCIDR, declServiceCIDRSpec, declServiceCIDRStatus, declServiceCIDRList,
   declPodNetwork, declPodNetworkSpec, declParametersRef, declPodNetworkStatus,
   declPodNetworkList, declPodNetworkAttachment, declPodNetworkAttachmentSpec,
   declPodNetworkAttachmentStatus, declPodNetworkAttachmentList]

/-- The three status records. -/
def statusRecords : List RecordDecl :=
  [declServiceCIDRStatus, declPodNetworkStatus, declPodNetworkAttachmentStatus]

/-- The four collection types. -/
def listRecords : List RecordDecl :=
  [declIPAddressList, declServiceCIDRList, declPodNetworkList, declPodNetworkAttachmentList]

/-- Every field of every declared record, in declaration order. -/
def allFields : List FieldTag :=
  declaredRecords.foldr (fun r acc => r.fields ++ acc) []

/-- The JSON names of a record's fields, in order (the inlined field has the empty name). -/
def RecordDecl.jsonNames (r : RecordDecl) : List String :=
  r.fields.map (fun f => f.jsonName)

/-- The protobuf tags of a record's fields that carry one, in order. -/
def RecordDecl.protoTags (r : RecordDecl) : List ProtoTag :=
  r.fields.filterMap (fun f => f.protobuf)

/-- The protobuf field numbers of a record, in order. -/
def RecordDecl.protoNumbers (r : RecordDecl) : List Nat :=
  r.protoTags.map (fun p => p.number)

/-! ## Go values -/

/-- The four `metav1` types the records embed, with their zero values and JSON
codecs.  `TypeMeta` is embedded without a JSON name, so its codec works on the
members of the enclosing object; the other three are values of their own. -/
structure MetaV1 where
  TypeMeta : Type
  ObjectMeta : Type
  ListMeta : Type
  Condition : Type
  zeroTypeMeta : TypeMeta
  zeroObjectMeta : ObjectMeta
  zeroListMeta : ListMeta
  encTypeMeta : TypeMeta → List (String × Json)
  decTypeMeta : List (String × Json) → Option TypeMeta
  encObjectMeta : ObjectMeta → Json
  decObjectMeta : Json → Option ObjectMeta
  encListMeta : ListMeta → Json
  decListMeta : Json → Option ListMeta
  encCondition : Condition → Json
  decCondition : Json → Option Condition

structure ParentReference where
  Group : GoString
  Resource : GoString
  Namespace : GoString
  Name : GoString
  deriving DecidableEq, Repr

structure IPAddressSpec where
  ParentRef : Option ParentReference
  deriving DecidableEq, Repr

structure IPAddress (M : MetaV1) where
  TypeMeta : M.TypeMeta
  ObjectMeta : M.ObjectMeta
  Spec : IPAddressSpec

structure IPAddressList (M : MetaV1) where
  TypeMeta : M.TypeMeta
  ListMeta : M.ListMeta
  Items : Option (List (IPAddress M))

structure ServiceCIDRSpec where
  CIDRs : Option (List GoString)
  deriving DecidableEq, Repr

structure ServiceCIDRStatus (M : MetaV1) where
  Conditions : Option (List M.Condition)

structure ServiceCIDR (M : MetaV1) where
  TypeMeta : M.TypeMeta
  ObjectMeta : M.ObjectMeta
  Spec : ServiceCIDRSpec
  Status : ServiceCIDRStatus M

structure ServiceCIDRList (M : MetaV1) where
  TypeMeta : M.TypeMeta
  ListMeta : M.ListMeta
  Items : Option (List (ServiceCIDR M))

structure ParametersRef where
  Group : GoString
  Kind : GoString
  Name : GoString
  Namespace : GoString
  deriving DecidableEq, Repr

structure PodNetworkSpec where
  Enabled : Bool
  ParametersRefs : Option (List ParametersRef)
  Provider : GoString
  deriving DecidableEq, Repr

structure PodNetworkStatus (M : MetaV1) where
  Conditions : Option (List M.Condition)

structure PodNetwork (M : MetaV1) where
  TypeMeta : M.TypeMeta
  ObjectMeta : M.ObjectMeta
  Spec : PodNetworkSpec
  Status : PodNetworkStatus M

structure PodNetworkList (M : MetaV1) where
  TypeMeta : M.TypeMeta
  ListMeta : M.ListMeta
  Items : Option (List (PodNetwork M))

structure PodNetworkAttachmentSpec where
  PodNetworkName : GoString
  ParametersRefs : Option (List ParametersRef)
  deriving DecidableEq, Repr

structure PodNetworkAttachmentStatus (M : MetaV1) where
  Conditions : Option (List M.Condition)

structure PodNetworkAttachment (M : MetaV1) where
  TypeMeta : M.TypeMeta
  ObjectMeta : M.ObjectMeta
  Spec : PodNetworkAttachmentSpec
  Status : PodNetworkAttachmentStatus M

structure PodNetworkAttachmentList (M : MetaV1) where
  TypeMeta : M.TypeMeta
  ListMeta : M.ListMeta
  Items : Option (List (PodNetworkAttachment M))

/-! ### Go zero values -/

def ParentReference.zero : ParentReference := ⟨[], [], [], []⟩
def IPAddressSpec.zero : IPAddressSpec := ⟨none⟩
def IPAddress.zero (M : MetaV1) : IPAddress M :=
  ⟨M.zeroTypeMeta, M.zeroObjectMeta, IPAddressSpec.zero⟩
def IPAddressList.zero (M : MetaV1) : IPAddressList M :=
  ⟨M.zeroTypeMeta, M.zeroListMeta, none⟩
def ServiceCIDRSpec.zero : ServiceCIDRSpec := ⟨none⟩
def ServiceCIDRStatus.zero (M : MetaV1) : ServiceCIDRStatus M := ⟨none⟩
def ServiceCIDR.zero (M : MetaV1) : ServiceCIDR M :=
  ⟨M.zeroTypeMeta, M.zeroObjectMeta, ServiceCIDRSpec.zero, ServiceCIDRStatus.zero M⟩
def ServiceCIDRList.zero (M : MetaV1) : ServiceCIDRList M :=
  ⟨M.zeroTypeMeta, M.zeroListMeta, none⟩
def ParametersRef.zero : ParametersRef := ⟨[], [], [], []⟩
def PodNetworkSpec.zero : PodNetworkSpec := ⟨false, none, []⟩
def PodNetworkStatus.zero (M : MetaV1) : PodNetworkStatus M := ⟨none⟩
def PodNetwork.zero (M : MetaV1) : PodNetwork M :=
  ⟨M.zeroTypeMeta, M.zeroObjectMeta, PodNetworkSpec.zero, PodNetworkStatus.zero M⟩
def PodNetworkList.zero (M : MetaV1) : PodNetworkList M :=
  ⟨M.zeroTypeMeta, M.zeroListMeta, none⟩
def PodNetworkAttachmentSpec.zero : PodNetworkAttachmentSpec := ⟨[], none⟩
def PodNetworkAttachmentStatus.zero (M : MetaV1) : PodNetworkAttachmentStatus M := ⟨none⟩
def PodNetworkAttachment.zero (M : MetaV1) : PodNetworkAttachment M :=
  ⟨M.zeroTypeMeta, M.zeroObjectMeta, PodNetworkAttachmentSpec.zero,
    PodNetworkAttachmentStatus.zero M⟩
def PodNetworkAttachmentList.zero (M : MetaV1) : PodNetworkAttachmentList M :=
  ⟨M.zeroTypeMeta, M.zeroListMeta, none⟩

/-! ## Encoding: what a tag makes of a field -/

/-- The member a field contributes: none when the tag says `omitempty` and the
value is empty, else the one member under the tag's JSON name. -/
def emit (t : FieldTag) (isEmpty : Bool) (v : Json) : List (String × Json) :=
  if t.omitempty && isEmpty then [] else [(t.jsonName, v)]

/-- A Go slice is empty when its length is zero: the nil slice and the empty one. -/
def emptySlice {α : Type} : Option (List α) → Bool
  | none => true
  | some xs => xs.isEmpty

/-- A nil slice encodes as `null`, any other as an array. -/
def encSlice {α : Type} (e : α → Json) : Option (List α) → Json
  | none => .null
  | some xs => .arr (xs.map e)

/-- A nil pointer encodes as `null`, any other as its pointee. -/
def encPtr {α : Type} (e : α → Json) : Option α → Json
  | none => .null
  | some x => e x

/-- A Go string encodes as the JSON string of its text. -/
def encString (s : GoString) : Json := .str (jsonText s)

def emitString (t : FieldTag) (s : GoString) : List (String × Json) :=
  emit t (decide (s = [])) (encString s)

def emitBool (t : FieldTag) (b : Bool) : List (String × Json) :=
  emit t (!b) (.bool b)

def emitSlice {α : Type} (t : FieldTag) (e : α → Json) (s : Option (List α)) :
    List (String × Json) :=
  emit t (emptySlice s) (encSlice e s)

def emitPtr {α : Type} (t : FieldTag) (e : α → Json) (p : Option α) : List (String × Json) :=
  emit t p.isNone (encPtr e p)

/-- A struct value is never empty, so `omitempty` does nothing on a struct field. -/
def emitStruct (t : FieldTag) (v : Json) : List (String × Json) :=
  emit t false v

/-! ### Serializers, one per record, field by field in declaration order -/

def marshalParentReference (v : ParentReference) : Json :=
  .obj (emitString ParentReference_Group v.Group ++
        emitString ParentReference_Resource v.Resource ++
        emitString ParentReference_Namespace v.Namespace ++
        emitString ParentReference_Name v.Name)

def marshalIPAddressSpec (v : IPAddressSpec) : Json :=
  .obj (emitPtr IPAddressSpec_ParentRef marshalParentReference v.ParentRef)

def marshalIPAddress (M : MetaV1) (v : IPAddress M) : Json :=
  .obj (M.encTypeMeta v.TypeMeta ++
        emitStruct IPAddress_ObjectMeta (M.encObjectMeta v.ObjectMeta) ++
        emitStruct IPAddress_Spec (marshalIPAddressSpec v.Spec))

def marshalIPAddressList (M : MetaV1) (v : IPAddressList M) : Json :=
  .obj (M.encTypeMeta v.TypeMeta ++
        emitStruct IPAddressList_ListMeta (M.encListMeta v.ListMeta) ++
        emitSlice IPAddressList_Items (marshalIPAddress M) v.Items)

def marshalServiceCIDRSpec (v : ServiceCIDRSpec) : Json :=
  .obj (emitSlice ServiceCIDRSpec_CIDRs encString v.CIDRs)

def marshalServiceCIDRStatus (M : MetaV1) (v : ServiceCIDRStatus M) : Json :=
  .obj (emitSlice ServiceCIDRStatus_Conditions M.encCondition v.Conditions)

def marshalServiceCIDR (M : MetaV1) (v : ServiceCIDR M) : Json :=
  .obj (M.encTypeMeta v.TypeMeta ++
        emitStruct ServiceCIDR_ObjectMeta (M.encObjectMeta v.ObjectMeta) ++
        emitStruct ServiceCIDR_Spec (marshalServiceCIDRSpec v.Spec) ++
        emitStruct ServiceCIDR_Status (marshalServiceCIDRStatus M v.Status))

def marshalServiceCIDRList (M : MetaV1) (v : ServiceCIDRList M) : Json :=
  .obj (M.encTypeMeta v.TypeMeta ++
        emitStruct ServiceCIDRList_ListMeta (M.encListMeta v.ListMeta) ++
        emitSlice ServiceCIDRList_Items (marshalServiceCIDR M) v.Items)

def marshalParametersRef (v : ParametersRef) : Json :=
  .obj (emitString ParametersRef_Group v.Group ++
        emitString ParametersRef_Kind v.Kind ++
        emitString ParametersRef_Name v.Name ++
        emitString ParametersRef_Namespace v.Namespace)

def marshalPodNetworkSpec (v : PodNetworkSpec) : Json :=
  .obj (emitBool PodNetworkSpec_Enabled v.Enabled ++
        emitSlice PodNetworkSpec_ParametersRefs marshalParametersRef v.ParametersRefs ++
        emitString PodNetworkSpec_Provider v.Provider)

def marshalPodNetworkStatus (M : MetaV1) (v : PodNetworkStatus M) : Json :=
  .obj (emitSlice PodNetworkStatus_Conditions M.encCondition v.Conditions)

def marshalPodNetwork (M : MetaV1) (v : PodNetwork M) : Json :=
  .obj (M.encTypeMeta v.TypeMeta ++
        emitStruct PodNetwork_ObjectMeta (M.encObjectMeta v.ObjectMeta) ++
        emitStruct PodNetwork_Spec (marshalPodNetworkSpec v.Spec) ++
        emitStruct PodNetwork_Status (marshalPodNetworkStatus M v.Status))

def marshalPodNetworkList (M : MetaV1) (v : PodNetworkList M) : Json :=
  .obj (M.encTypeMeta v.TypeMeta ++
        emitStruct PodNetworkList_ListMeta (M.encListMeta v.ListMeta) ++
        emitSlice PodNetworkList_Items (marshalPodNetwork M) v.Items)

def marshalPodNetworkAttachmentSpec (v : PodNetworkAttachmentSpec) : Json :=
  .obj (emitString PodNetworkAttachmentSpec_PodNetworkName v.PodNetworkName ++
        emitSlice PodNetworkAttachmentSpec_ParametersRefs marshalParametersRef v.ParametersRefs)

def marshalPodNetworkAttachmentStatus (M : MetaV1) (v : PodNetworkAttachmentStatus M) : Json :=
  .obj (emitSlice PodNetworkAttachmentStatus_Conditions M.encCondition v.Conditions)

def marshalPodNetworkAttachment (M : MetaV1) (v : PodNetworkAttachment M) : Json :=
  .obj (M.encTypeMeta v.TypeMeta ++
        emitStruct PodNetworkAttachment_ObjectMeta (M.encObjectMeta v.ObjectMeta) ++
        emitStruct PodNetworkAttachment_Spec (marshalPodNetworkAttachmentSpec v.Spec) ++
        emitStruct PodNetworkAttachment_Status (marshalPodNetworkAttachmentStatus M v.Status))

def marshalPodNetworkAttachmentList (M : MetaV1) (v : PodNetworkAttachmentList M) : Json :=
  .obj (M.encTypeMeta v.TypeMeta ++
        emitStruct PodNetworkAttachmentList_ListMeta (M.encListMeta v.ListMeta) ++
        emitSlice PodNetworkAttachmentList_Items (marshalPodNetworkAttachment M) v.Items)

/-! ## Decoding -/

/-- A JSON value read as a Go string; `null` leaves the zero value. -/
def stringOf : Json → Option GoString
  | .null => some []
  | .str s => some (goString s)
  | _ => none

/-- A JSON value read as a Go bool; `null` leaves the zero value. -/
def boolOf : Json → Option Bool
  | .null => some false
  | .bool b => some b
  | _ => none

/-- The elements of an array, each read with `d`; one failure fails the whole. -/
def decList {α : Type} (d : Json → Option α) : List Json → Option (List α)
  | [] => some []
  | j :: js =>
    match d j, decList d js with
    | some x, some xs => some (x :: xs)
    | _, _ => none

/-- A JSON value read as a Go slice: `null` is the nil slice, an array a slice
of that length (the empty array is the empty non-nil slice). -/
def sliceOf {α : Type} (d : Json → Option α) : Json → Option (Option (List α))
  | .null => some none
  | .arr xs => (decList d xs).map some
  | _ => none

/-- A JSON value read as a Go pointer: `null` is the nil pointer, anything else
is read into a fresh pointee. -/
def ptrOf {α : Type} (d : Json → Option α) : Json → Option (Option α)
  | .null => some none
  | j => (d j).map some

/-- The field tagged `t` read out of the members `kvs`: the zero value when the
name is absent, else the bound value read with `d`. -/
def decField {α : Type} (zero : α) (d : Json → Option α) (kvs : List (String × Json))
    (t : FieldTag) : Option α :=
  match getField kvs t.jsonName with
  | none => some zero
  | some j => d j

def unmarshalParentReference : Json → Option ParentReference
  | .null => some ParentReference.zero
  | .obj kvs => do
    let g ← decField [] stringOf kvs ParentReference_Group
    let r ← decField [] stringOf kvs ParentReference_Resource
    let ns ← decField [] stringOf kvs ParentReference_Namespace
    let n ← decField [] stringOf kvs ParentReference_Name
    pure ⟨g, r, ns, n⟩
  | _ => none

def unmarshalIPAddressSpec : Json → Option IPAddressSpec
  | .null => some IPAddressSpec.zero
  | .obj kvs => do
    let p ← decField none (ptrOf unmarshalParentReference) kvs IPAddressSpec_ParentRef
    pure ⟨p⟩
  | _ => none

def unmarshalIPAddress (M : MetaV1) : Json → Option (IPAddress M)
  | .null => some (IPAddress.zero M)
  | .obj kvs => do
    let tm ← M.decTypeMeta kvs
    let om ← decField M.zeroObjectMeta M.decObjectMeta kvs IPAddress_ObjectMeta
    let sp ← decField IPAddressSpec.zero unmarshalIPAddressSpec kvs IPAddress_Spec
    pure ⟨tm, om, sp⟩
  | _ => none

def unmarshalIPAddressList (M : MetaV1) : Json → Option (IPAddressList M)
  | .null => some (IPAddressList.zero M)
  | .obj kvs => do
    let tm ← M.decTypeMeta kvs
    let lm ← decField M.zeroListMeta M.decListMeta kvs IPAddressList_ListMeta
    let it ← decField none (sliceOf (unmarshalIPAddress M)) kvs IPAddressList_Items
    pure ⟨tm, lm, it⟩
  | _ => none

def unmarshalServiceCIDRSpec : Json → Option ServiceCIDRSpec
  | .null => some ServiceCIDRSpec.zero
  | .obj kvs => do
    let c ← decField none (sliceOf stringOf) kvs ServiceCIDRSpec_CIDRs
    pure ⟨c⟩
  | _ => none

def unmarshalServiceCIDRStatus (M : MetaV1) : Json → Option (ServiceCIDRStatus M)
  | .null => some (ServiceCIDRStatus.zero M)
  | .obj kvs => do
    let c ← decField none (sliceOf M.decCondition) kvs ServiceCIDRStatus_Conditions
    pure ⟨c⟩
  | _ => none

def unmarshalServiceCIDR (M : MetaV1) : Json → Option (ServiceCIDR M)
  | .null => some (ServiceCIDR.zero M)
  | .obj kvs => do
    let tm ← M.decTypeMeta kvs
    let om ← decField M.zeroObjectMeta M.decObjectMeta kvs ServiceCIDR_ObjectMeta
    let sp ← decField ServiceCIDRSpec.zero unmarshalServiceCIDRSpec kvs ServiceCIDR_Spec
    let st ← decField (ServiceCIDRStatus.zero M) (unmarshalServiceCIDRStatus M) kvs
      ServiceCIDR_Status
    pure ⟨tm, om, sp, st⟩
  | _ => none

def unmarshalServiceCIDRList (M : MetaV1) : Json → Option (ServiceCIDRList M)
  | .null => some (ServiceCIDRList.zero M)
  | .obj kvs => do
    let tm ← M.decTypeMeta kvs
    let lm ← decField M.zeroListMeta M.decListMeta kvs ServiceCIDRList_ListMeta
    let it ← decField none (sliceOf (unmarshalServiceCIDR M)) kvs ServiceCIDRList_Items
    pure ⟨tm, lm, it⟩
  | _ => none

def unmarshalParametersRef : Json → Option ParametersRef
  | .null => some ParametersRef.zero
  | .obj kvs => do
    let g ← decField [] stringOf kvs ParametersRef_Group
    let k ← decField [] stringOf kvs ParametersRef_Kind
    let n ← decField [] stringOf kvs ParametersRef_Name
    let ns ← decField [] stringOf kvs ParametersRef_Namespace
    pure ⟨g, k, n, ns⟩
  | _ => none

def unmarshalPodNetworkSpec : Json → Option PodNetworkSpec
  | .null => some PodNetworkSpec.zero
  | .obj kvs => do
    let e ← decField false boolOf kvs PodNetworkSpec_Enabled
    let p ← decField none (sliceOf unmarshalParametersRef) kvs PodNetworkSpec_ParametersRefs
    let pr ← decField [] stringOf kvs PodNetworkSpec_Provider
    pure ⟨e, p, pr⟩
  | _ => none

def unmarshalPodNetworkStatus (M : MetaV1) : Json → Option (PodNetworkStatus M)
  | .null => some (PodNetworkStatus.zero M)
  | .obj kvs => do
    let c ← decField none (sliceOf M.decCondition) kvs PodNetworkStatus_Conditions
    pure ⟨c⟩
  | _ => none

def unmarshalPodNetwork (M : MetaV1) : Json → Option (PodNetwork M)
  | .null => some (PodNetwork.zero M)
  | .obj kvs => do
    let tm ← M.decTypeMeta kvs
    let om ← decField M.zeroObjectMeta M.decObjectMeta kvs PodNetwork_ObjectMeta
    let sp ← decField PodNetworkSpec.zero unmarshalPodNetworkSpec kvs PodNetwork_Spec
    let st ← decField (PodNetworkStatus.zero M) (unmarshalPodNetworkStatus M) kvs
      PodNetwork_Status
    pure ⟨tm, om, sp, st⟩
  | _ => none

def unmarshalPodNetworkList (M : MetaV1) : Json → Option (PodNetworkList M)
  | .null => some (PodNetworkList.zero M)
  | .obj kvs => do
    let tm ← M.decTypeMeta kvs
    let lm ← decField M.zeroListMeta M.decListMeta kvs PodNetworkList_ListMeta
    let it ← decField none (sliceOf (unmarshalPodNetwork M)) kvs PodNetworkList_Items
    pure ⟨tm, lm, it⟩
  | _ => none

def unmarshalPodNetworkAttachmentSpec : Json → Option PodNetworkAttachmentSpec
  | .null => some PodNetworkAttachmentSpec.zero
  | .obj kvs => do
    let n ← decField [] stringOf kvs PodNetworkAttachmentSpec_PodNetworkName
    let p ← decField none (sliceOf unmarshalParametersRef) kvs
      PodNetworkAttachmentSpec_ParametersRefs
    pure ⟨n, p⟩
  | _ => none

def unmarshalPodNetworkAttachmentStatus (M : MetaV1) :
    Json → Option (PodNetworkAttachmentStatus M)
  | .null => some (PodNetworkAttachmentStatus.zero M)
  | .obj kvs => do
    let c ← decField none (sliceOf M.decCondition) kvs PodNetworkAttachmentStatus_Conditions
    pure ⟨c⟩
  | _ => none

def unmarshalPodNetworkAttachment (M : MetaV1) : Json → Option (PodNetworkAttachment M)
  | .null => some (PodNetworkAttachment.zero M)
  | .obj kvs => do
    let tm ← M.decTypeMeta kvs
    let om ← decField M.zeroObjectMeta M.decObjectMeta kvs PodNetworkAttachment_ObjectMeta
    let sp ← decField PodNetworkAttachmentSpec.zero unmarshalPodNetworkAttachmentSpec kvs
      PodNetworkAttachment_Spec
    let st ← decField (PodNetworkAttachmentStatus.zero M)
      (unmarshalPodNetworkAttachmentStatus M) kvs PodNetworkAttachment_Status
    pure ⟨tm, om, sp, st⟩
  | _ => none

def unmarshalPodNetworkAttachmentList (M : MetaV1) :
    Json → Option (PodNetworkAttachmentList M)
  | .null => some (PodNetworkAttachmentList.zero M)
  | .obj kvs => do
    let tm ← M.decTypeMeta kvs
    let lm ← decField M.zeroListMeta M.decListMeta kvs PodNetworkAttachmentList_ListMeta
    let it ← decField none (sliceOf (unmarshalPodNetworkAttachment M)) kvs
      PodNetworkAttachmentList_Items
    pure ⟨tm, lm, it⟩
  | _ => none


/-! ## What a value asks of the `metav1` codecs

The codecs of `metav1` lie outside this file, so nothing is assumed of them as
a whole; a statement about a record names the embedded values it needs to come
back. -/

/-- The member names the records of `types.go` use next to an inlined `TypeMeta`. -/
def reservedNames : List String := ["metadata", "spec", "status", "items"]

/-- The promoted members of the type header `t` use none of the reserved names
(so the serialized record repeats no name), and `t` decodes from them whatever
members under the reserved names stand after them. -/
def MetaV1.KeepsTypeMeta (M : MetaV1) (t : M.TypeMeta) : Prop :=
  (∀ kv ∈ M.encTypeMeta t, kv.1 ∉ reservedNames) ∧
  ∀ rest : List (String × Json), (∀ kv ∈ rest, kv.1 ∈ reservedNames) →
    M.decTypeMeta (M.encTypeMeta t ++ rest) = some t

/-- The object metadata `m` decodes from its own encoding. -/
def MetaV1.KeepsObjectMeta (M : MetaV1) (m : M.ObjectMeta) : Prop :=
  M.decObjectMeta (M.encObjectMeta m) = some m

/-- The list metadata `m` decodes from its own encoding. -/
def MetaV1.KeepsListMeta (M : MetaV1) (m : M.ListMeta) : Prop :=
  M.decListMeta (M.encListMeta m) = some m

/-- The condition `c` decodes from its own encoding. -/
def MetaV1.KeepsCondition (M : MetaV1) (c : M.Condition) : Prop :=
  M.decCondition (M.encCondition c) = some c

/-! ## Values that lose nothing on the wire

`Lossless` collects, for a value of a record, the three things its wire form
can lose: a string that is not valid UTF-8 (it is rewritten), a slice tagged
`omitempty` that is empty but non-nil (it is left out, and an absent name
decodes to nil), and an embedded `metav1` value that its own codec does not
give back. -/

def ParentReference.Lossless (v : ParentReference) : Prop :=
  validUTF8 v.Group = true ∧ validUTF8 v.Resource = true ∧
  validUTF8 v.Namespace = true ∧ validUTF8 v.Name = true

def IPAddressSpec.Lossless (v : IPAddressSpec) : Prop :=
  ∀ p, v.ParentRef = some p → p.Lossless

def IPAddress.Lossless {M : MetaV1} (v : IPAddress M) : Prop :=
  M.KeepsTypeMeta v.TypeMeta ∧ M.KeepsObjectMeta v.ObjectMeta ∧ v.Spec.Lossless

def IPAddressList.Lossless {M : MetaV1} (v : IPAddressList M) : Prop :=
  M.KeepsTypeMeta v.TypeMeta ∧ M.KeepsListMeta v.ListMeta ∧
  ∀ x ∈ v.Items.getD [], x.Lossless

def ServiceCIDRSpec.Lossless (v : ServiceCIDRSpec) : Prop :=
  v.CIDRs ≠ some [] ∧ ∀ s ∈ v.CIDRs.getD [], validUTF8 s = true

def ServiceCIDRStatus.Lossless {M : MetaV1} (v : ServiceCIDRStatus M) : Prop :=
  v.Conditions ≠ some [] ∧ ∀ c ∈ v.Conditions.getD [], M.KeepsCondition c

def ServiceCIDR.Lossless {M : MetaV1} (v : ServiceCIDR M) : Prop :=
  M.KeepsTypeMeta v.TypeMeta ∧ M.KeepsObjectMeta v.ObjectMeta ∧
  v.Spec.Lossless ∧ v.Status.Lossless

def ServiceCIDRList.Lossless {M : MetaV1} (v : ServiceCIDRList M) : Prop :=
  M.KeepsTypeMeta v.TypeMeta ∧ M.KeepsListMeta v.ListMeta ∧
  ∀ x ∈ v.Items.getD [], x.Lossless

def ParametersRef.Lossless (v : ParametersRef) : Prop :=
  validUTF8 v.Group = true ∧ validUTF8 v.Kind = true ∧
  validUTF8 v.Name = true ∧ validUTF8 v.Namespace = true

def PodNetworkSpec.Lossless (v : PodNetworkSpec) : Prop :=
  v.ParametersRefs ≠ some [] ∧ (∀ r ∈ v.ParametersRefs.getD [], r.Lossless) ∧
  validUTF8 v.Provider = true

def PodNetworkStatus.Lossless {M : MetaV1} (v : PodNetworkStatus M) : Prop :=
  v.Conditions ≠ some [] ∧ ∀ c ∈ v.Conditions.getD [], M.KeepsCondition c

def PodNetwork.Lossless {M : MetaV1} (v : PodNetwork M) : Prop :=
  M.KeepsTypeMeta v.TypeMeta ∧ M.KeepsObjectMeta v.ObjectMeta ∧
  v.Spec.Lossless ∧ v.Status.Lossless

def PodNetworkList.Lossless {M : MetaV1} (v : PodNetworkList M) : Prop :=
  M.KeepsTypeMeta v.TypeMeta ∧ M.KeepsListMeta v.ListMeta ∧
  ∀ x ∈ v.Items.getD [], x.Lossless

def PodNetworkAttachmentSpec.Lossless (v : PodNetworkAttachmentSpec) : Prop :=
  validUTF8 v.PodNetworkName = true ∧ v.ParametersRefs ≠ some [] ∧
  ∀ r ∈ v.ParametersRefs.getD [], r.Lossless

def PodNetworkAttachmentStatus.Lossless {M : MetaV1} (v : PodNetworkAttachmentStatus M) :
    Prop :=
  v.Conditions ≠ some [] ∧ ∀ c ∈ v.Conditions.getD [], M.KeepsCondition c

def PodNetworkAttachment.Lossless {M : MetaV1} (v : PodNetworkAttachment M) : Prop :=
  M.KeepsTypeMeta v.TypeMeta ∧ M.KeepsObjectMeta v.ObjectMeta ∧
  v.Spec.Lossless ∧ v.Status.Lossless

def PodNetworkAttachmentList.Lossless {M : MetaV1} (v : PodNetworkAttachmentList M) : Prop :=
  M.KeepsTypeMeta v.TypeMeta ∧ M.KeepsListMeta v.ListMeta ∧
  ∀ x ∈ v.Items.getD [], x.Lossless

/-! ## A small instance of `MetaV1`

Used to exhibit concrete values of the records that embed a `metav1` type:
a type header of two strings, object and list metadata of one string each, and
a condition of a type and a status. -/

structure SampleTypeMeta where
  Kind : GoString
  APIVersion : GoString
  deriving DecidableEq, Repr

structure SampleObjectMeta where
  Name : GoString
  deriving DecidableEq, Repr

structure SampleListMeta where
  ResourceVersion : GoString
  deriving DecidableEq, Repr

structure SampleCondition where
  ConditionType : GoString
  Status : GoString
  deriving DecidableEq, Repr

def Sample_Kind : FieldTag := fieldTag "Kind" "string" "kind" true 1 "opt" "kind" .optional
def Sample_APIVersion : FieldTag :=
  fieldTag "APIVersion" "string" "apiVersion" true 2 "opt" "apiVersion" .optional
def Sample_Name : FieldTag := fieldTag "Name" "string" "name" true 1 "opt" "name" .optional
def Sample_ResourceVersion : FieldTag :=
  fieldTag "ResourceVersion" "string" "resourceVersion" true 2 "opt" "resourceVersion" .optional
def Sample_ConditionType : FieldTag :=
  fieldTag "Type" "string" "type" false 1 "opt" "type" .unmarked
def Sample_Status : FieldTag :=
  fieldTag "Status" "string" "status" false 2 "opt" "status" .unmarked

def sampleEncTypeMeta (t : SampleTypeMeta) : List (String × Json) :=
  emitString Sample_Kind t.Kind ++ emitString Sample_APIVersion t.APIVersion

def sampleDecTypeMeta (kvs : List (String × Json)) : Option SampleTypeMeta := do
  let k ← decField [] stringOf kvs Sample_Kind
  let a ← decField [] stringOf kvs Sample_APIVersion
  pure ⟨k, a⟩

def sampleEncObjectMeta (m : SampleObjectMeta) : Json :=
  .obj (emitString Sample_Name m.Name)

def sampleDecObjectMeta : Json → Option SampleObjectMeta
  | .null => some ⟨[]⟩
  | .obj kvs => do
    let n ← decField [] stringOf kvs Sample_Name
    pure ⟨n⟩
  | _ => none

def sampleEncListMeta (m : SampleListMeta) : Json :=
  .obj (emitString Sample_ResourceVersion m.ResourceVersion)

def sampleDecListMeta : Json → Option SampleListMeta
  | .null => some ⟨[]⟩
  | .obj kvs => do
    let n ← decField [] stringOf kvs Sample_ResourceVersion
    pure ⟨n⟩
  | _ => none

def sampleEncCondition (c : SampleCondition) : Json :=
  .obj (emitString Sample_ConditionType c.ConditionType ++ emitString Sample_Status c.Status)

def sampleDecCondition : Json → Option SampleCondition
  | .null => some ⟨[], []⟩
  | .obj kvs => do
    let t ← decField [] stringOf kvs Sample_ConditionType
    let s ← decField [] stringOf kvs Sample_Status
    pure ⟨t, s⟩
  | _ => none

def sampleMeta : MetaV1 where
  TypeMeta := SampleTypeMeta
  ObjectMeta := SampleObjectMeta
  ListMeta := SampleListMeta
  Condition := SampleCondition
  zeroTypeMeta := ⟨[], []⟩
  zeroObjectMeta := ⟨[]⟩
  zeroListMeta := ⟨[]⟩
  encTypeMeta := sampleEncTypeMeta
  decTypeMeta := sampleDecTypeMeta
  encObjectMeta := sampleEncObjectMeta
  decObjectMeta := sampleDecObjectMeta
  encListMeta := sampleEncListMeta
  decListMeta := sampleDecListMeta
  encCondition := sampleEncCondition
  decCondition := sampleDecCondition

/-- A `PodNetwork` with every field set. -/
def samplePodNetwork : PodNetwork sampleMeta :=
  ⟨(⟨goString "PodNetwork", goString "networking.k8s.io/v1alpha1"⟩ : SampleTypeMeta),
   (⟨goString "blue"⟩ : SampleObjectMeta),
   ⟨true, some [⟨goString "k8s.cni.cncf.io", goString "network-attachment-definitions",
      goString "blue-net", []⟩], goString "example.com/provider"⟩,
   ⟨some [(⟨goString "Ready", goString "True"⟩ : SampleCondition)]⟩⟩

/-- An `IPAddress` whose `parentRef` is a non-nil pointer to an all-empty `ParentReference`. -/
def sampleIPAddress : IPAddress sampleMeta :=
  ⟨(⟨goString "IPAddress", goString "networking.k8s.io/v1alpha1"⟩ : SampleTypeMeta),
   (⟨goString "192.168.1.5"⟩ : SampleObjectMeta),
   ⟨some ParentReference.zero⟩⟩

/-- A `PodNetworkList` with an empty non-nil `items`. -/
def sampleEmptyPodNetworkList : PodNetworkList sampleMeta :=
  ⟨(⟨goString "PodNetworkList", goString "networking.k8s.io/v1alpha1"⟩ : SampleTypeMeta),
   (⟨goString "7"⟩ : SampleListMeta), some []⟩

/-- A `ParentReference` whose name is the single byte `0xFF`, which is not valid UTF-8. -/
def invalidNameParentReference : ParentReference := ⟨[], [], [], [0xFF]⟩

/-! ## Valid UTF-8 survives the wire -/

theorem toNat_ofNat_valid (n : Nat) (h : n.isValidChar) : (Char.ofNat n).toNat = n := by
  simp [Char.ofNat, h, Char.ofNatAux, Char.toNat, UInt32.toNat]

theorem inRange_iff (lo hi : Nat) (b : Byte) : inRange lo hi b = true ↔ lo ≤ b.val ∧ b.val ≤ hi := by
  simp [inRange]

theorem byte_ofNat_eq (b : Byte) (n : Nat) (h : n = b.val) : (Fin.ofNat n : Byte) = b := by
  apply Fin.ext
  have := b.isLt
  simp [Fin.ofNat, h]

theorem utf8Bytes_one (b0 : Byte) (h0 : b0.val < 0x80) :
    utf8Bytes (Char.ofNat b0.val) = [b0] := by
  have hv : (b0.val).isValidChar := Or.inl (by omega)
  have ht := toNat_ofNat_valid _ hv
  simp only [utf8Bytes, ht, if_pos h0]
  rw [byte_ofNat_eq b0 _ rfl]

theorem utf8Bytes_two (b0 b1 : Byte) (h0 : inRange 0xC2 0xDF b0 = true)
    (h1 : inRange 0x80 0xBF b1 = true) :
    utf8Bytes (Char.ofNat (b0.val % 32 * 64 + b1.val % 64)) = [b0, b1] := by
  rw [inRange_iff] at h0 h1
  have hv : (b0.val % 32 * 64 + b1.val % 64).isValidChar := Or.inl (by omega)
  have ht := toNat_ofNat_valid _ hv
  have c1 : ¬ (b0.val % 32 * 64 + b1.val % 64 < 0x80) := by omega
  have c2 : b0.val % 32 * 64 + b1.val % 64 < 0x800 := by omega
  simp only [utf8Bytes, ht, if_neg c1, if_pos c2]
  rw [byte_ofNat_eq b0 _ (by omega), byte_ofNat_eq b1 _ (by omega)]

theorem utf8Bytes_three (b0 b1 b2 : Byte) (h0 : inRange 0xE0 0xEF b0 = true)
    (h1 : inRange (secondLo b0) (secondHi b0) b1 = true) (h2 : inRange 0x80 0xBF b2 = true) :
    utf8Bytes (Char.ofNat (b0.val % 16 * 4096 + b1.val % 64 * 64 + b2.val % 64))
      = [b0, b1, b2] := by
  rw [inRange_iff] at h0 h1 h2
  simp only [secondLo, secondHi] at h1
  have hb : 0x80 ≤ b1.val ∧ b1.val ≤ 0xBF ∧ (b0.val = 0xE0 → 0xA0 ≤ b1.val) ∧
      (b0.val = 0xED → b1.val ≤ 0x9F) := by
    split_ifs at h1 <;> omega
  clear h1
  have hv : (b0.val % 16 * 4096 + b1.val % 64 * 64 + b2.val % 64).isValidChar := by
    simp only [Nat.isValidChar]
    omega
  have ht := toNat_ofNat_valid _ hv
  have c1 : ¬ (b0.val % 16 * 4096 + b1.val % 64 * 64 + b2.val % 64 < 0x80) := by omega
  have c2 : ¬ (b0.val % 16 * 4096 + b1.val % 64 * 64 + b2.val % 64 < 0x800) := by omega
  have c3 : b0.val % 16 * 4096 + b1.val % 64 * 64 + b2.val % 64 < 0x10000 := by omega
  simp only [utf8Bytes, ht, if_neg c1, if_neg c2, if_pos c3]
  rw [byte_ofNat_eq b0 _ (by omega), byte_ofNat_eq b1 _ (by omega),
    byte_ofNat_eq b2 _ (by omega)]

theorem utf8Bytes_four (b0 b1 b2 b3 : Byte) (h0 : inRange 0xF0 0xF4 b0 = true)
    (h1 : inRange (secondLo b0) (secondHi b0) b1 = true) (h2 : inRange 0x80 0xBF b2 = true)
    (h3 : inRange 0x80 0xBF b3 = true) :
    utf8Bytes (Char.ofNat
        (b0.val % 8 * 262144 + b1.val % 64 * 4096 + b2.val % 64 * 64 + b3.val % 64))
      = [b0, b1, b2, b3] := by
  rw [inRange_iff] at h0 h1 h2 h3
  simp only [secondLo, secondHi] at h1
  have hb : 0x80 ≤ b1.val ∧ b1.val ≤ 0xBF ∧ (b0.val = 0xF0 → 0x90 ≤ b1.val) ∧
      (b0.val = 0xF4 → b1.val ≤ 0x8F) := by
    split_ifs at h1 <;> omega
  clear h1
  have hv : (b0.val % 8 * 262144 + b1.val % 64 * 4096 + b2.val % 64 * 64
      + b3.val % 64).isValidChar := by
    simp only [Nat.isValidChar]
    omega
  have ht := toNat_ofNat_valid _ hv
  have c1 : ¬ (b0.val % 8 * 262144 + b1.val % 64 * 4096 + b2.val % 64 * 64
      + b3.val % 64 < 0x80) := by omega
  have c2 : ¬ (b0.val % 8 * 262144 + b1.val % 64 * 4096 + b2.val % 64 * 64
      + b3.val % 64 < 0x800) := by omega
  have c3 : ¬ (b0.val % 8 * 262144 + b1.val % 64 * 4096 + b2.val % 64 * 64
      + b3.val % 64 < 0x10000) := by omega
  simp only [utf8Bytes, ht, if_neg c1, if_neg c2, if_neg c3]
  rw [byte_ofNat_eq b0 _ (by omega), byte_ofNat_eq b1 _ (by omega),
    byte_ofNat_eq b2 _ (by omega), byte_ofNat_eq b3 _ (by omega)]

/-- A valid UTF-8 string is unchanged by the encoder's coercion and the decoder's
re-encoding. -/
theorem decodeRune_head (b0 : Byte) (t0 : List Byte) (h : badHead b0 t0 = false) :
    utf8Bytes (Char.ofNat (decodeRune b0 t0).1) ++ t0.drop ((decodeRune b0 t0).2 - 1)
      = b0 :: t0 := by
  unfold badHead at h
  unfold decodeRune at h ⊢
  by_cases c1 : b0.val < 0x80
  · simp only [if_pos c1]
    rw [utf8Bytes_one b0 c1]
    rfl
  · simp only [if_neg c1] at h ⊢
    by_cases c2 : inRange 0xC2 0xDF b0 = true
    · simp only [if_pos c2] at h ⊢
      rcases t0 with _ | ⟨b1, t1⟩
      · simp at h
      · by_cases d1 : inRange 0x80 0xBF b1 = true
        · simp only [if_pos d1]
          rw [utf8Bytes_two b0 b1 c2 d1]
          rfl
        · simp [d1] at h
    · simp only [if_neg c2] at h ⊢
      by_cases c3 : inRange 0xE0 0xEF b0 = true
      · simp only [if_pos c3] at h ⊢
        rcases t0 with _ | ⟨b1, _ | ⟨b2, t2⟩⟩
        · simp at h
        · simp at h
        · by_cases d : (inRange (secondLo b0) (secondHi b0) b1 && inRange 0x80 0xBF b2) = true
          · simp only [if_pos d]
            rw [Bool.and_eq_true] at d
            rw [utf8Bytes_three b0 b1 b2 c3 d.1 d.2]
            rfl
          · simp [d] at h
      · simp only [if_neg c3] at h ⊢
        by_cases c4 : inRange 0xF0 0xF4 b0 = true
        · simp only [if_pos c4] at h ⊢
          rcases t0 with _ | ⟨b1, _ | ⟨b2, _ | ⟨b3, t3⟩⟩⟩
          · simp at h
          · simp at h
          · simp at h
          · by_cases d : (inRange (secondLo b0) (secondHi b0) b1 && inRange 0x80 0xBF b2 &&
                inRange 0x80 0xBF b3) = true
            · simp only [if_pos d]
              simp only [Bool.and_eq_true] at d
              rw [utf8Bytes_four b0 b1 b2 b3 c4 d.1.1 d.1.2 d.2]
              rfl
            · simp [d] at h
        · simp [c4] at h

theorem encodeRunes_jsonRunesFrom (s : GoString) :
    ∀ k, validFrom k s = true → encodeRunes (jsonRunesFrom k s) = s.drop k := by
  induction s with
  | nil => intro k _; cases k <;> rfl
  | cons b0 t0 ih =>
    intro k h
    cases k with
    | succ k => exact ih k h
    | zero =>
      simp only [validFrom, Bool.and_eq_true, Bool.not_eq_true'] at h
      simp only [jsonRunesFrom, encodeRunes, ih _ h.2, List.drop_zero]
      exact decodeRune_head b0 t0 h.1

/-- A valid UTF-8 string is unchanged by the encoder's coercion followed by the
decoder's re-encoding. -/
theorem goString_jsonText (s : GoString) (h : validUTF8 s = true) :
    goString (jsonText s) = s :=
  encodeRunes_jsonRunesFrom s 0 h

/-! ## Lemmas on the codec primitives -/

theorem getField_append (a b : List (String × Json)) (k : String) :
    getField (a ++ b) k =
      match getField b k with
      | some w => some w
      | none => getField a k := by
  induction a with
  | nil => cases h : getField b k <;> simp [getField, h]
  | cons kv a ih =>
    obtain ⟨k', v⟩ := kv
    rw [List.cons_append, getField, ih]
    cases h : getField b k <;> simp [getField]

theorem decList_map {α : Type} (d : Json → Option α) (e : α → Json) (xs : List α)
    (h : ∀ x ∈ xs, d (e x) = some x) : decList d (xs.map e) = some xs := by
  induction xs with
  | nil => rfl
  | cons x xs ih =>
    have hx := h x (List.mem_cons_self x xs)
    have hxs := ih (fun y hy => h y (List.mem_cons_of_mem x hy))
    simp [decList, hx, hxs]

theorem sliceOf_encSlice {α : Type} (d : Json → Option α) (e : α → Json)
    (s : Option (List α)) (h : ∀ x ∈ s.getD [], d (e x) = some x) :
    sliceOf d (encSlice e s) = some s := by
  cases s with
  | none => rfl
  | some xs => simp [encSlice, sliceOf, decList_map d e xs h]

/-- A slice field tagged `omitempty`, alone in its object, comes back unless it
was empty non-nil. -/
theorem decField_emitSlice {α : Type} (t : FieldTag) (d : Json → Option α) (e : α → Json)
    (s : Option (List α)) (hs : s ≠ some []) (h : ∀ x ∈ s.getD [], d (e x) = some x) :
    decField none (sliceOf d) (emitSlice t e s) t = some s := by
  have key := sliceOf_encSlice d e s h
  rcases s with _ | _ | ⟨x, xs⟩
  · cases ho : t.omitempty <;>
      simp [emitSlice, emit, emptySlice, decField, getField, ho, encSlice, sliceOf]
  · exact absurd rfl hs
  · simp [emitSlice, emit, emptySlice, decField, getField, key]

theorem stringOf_encString (s : GoString) (h : validUTF8 s = true) :
    stringOf (encString s) = some s := by
  simp [stringOf, encString, goString_jsonText s h]

theorem decList_stringOf_str (xs : List String) :
    decList stringOf (xs.map Json.str) = some (xs.map goString) := by
  induction xs with
  | nil => rfl
  | cons x xs ih => simp [decList, stringOf, ih]

theorem getField_eq_none (kvs : List (String × Json)) (k : String)
    (h : ∀ kv ∈ kvs, kv.1 ≠ k) : getField kvs k = none := by
  induction kvs with
  | nil => rfl
  | cons kv kvs ih =>
    obtain ⟨k', v⟩ := kv
    have h1 : k' ≠ k := h (k', v) (List.mem_cons_self _ _)
    have h2 := ih (fun x hx => h x (List.mem_cons_of_mem _ hx))
    simp [getField, h1, h2]

/-! ## Round trips of the records that embed no `metav1` type -/

theorem unmarshal_marshal_ParentReference (v : ParentReference) (hv : v.Lossless) :
    unmarshalParentReference (marshalParentReference v) = some v := by
  rcases v with ⟨g, r, ns, n⟩
  obtain ⟨h1, h2, h3, h4⟩ := hv
  have e1 := goString_jsonText g h1
  have e2 := goString_jsonText r h2
  have e3 := goString_jsonText ns h3
  have e4 := goString_jsonText n h4
  by_cases hg : g = [] <;> by_cases hr : r = [] <;> by_cases hns : ns = [] <;>
    by_cases hn : n = [] <;>
    simp [marshalParentReference, unmarshalParentReference, emitString, encString, emit,
      decField, getField, stringOf, fieldTag, ParentReference_Group, ParentReference_Resource,
      ParentReference_Namespace, ParentReference_Name, hg, hr, hns, hn, e1, e2, e3, e4]

theorem unmarshal_marshal_IPAddressSpec (v : IPAddressSpec) (hv : v.Lossless) :
    unmarshalIPAddressSpec (marshalIPAddressSpec v) = some v := by
  rcases v with ⟨_ | p⟩
  · rfl
  · have hp := unmarshal_marshal_ParentReference p (hv p rfl)
    have hobj : ∃ kvs, marshalParentReference p = .obj kvs := ⟨_, rfl⟩
    obtain ⟨kvs, hk⟩ := hobj
    rw [hk] at hp
    simp [marshalIPAddressSpec, unmarshalIPAddressSpec, emitPtr, emit, decField, getField,
      encPtr, ptrOf, fieldTag, IPAddressSpec_ParentRef, hk, hp]

theorem unmarshal_marshal_ServiceCIDRSpec (v : ServiceCIDRSpec) (hv : v.Lossless) :
    unmarshalServiceCIDRSpec (marshalServiceCIDRSpec v) = some v := by
  rcases v with ⟨c⟩
  have h := decField_emitSlice ServiceCIDRSpec_CIDRs stringOf encString c hv.1
    (fun x hx => stringOf_encString x (hv.2 x hx))
  simp [marshalServiceCIDRSpec, unmarshalServiceCIDRSpec, h]

theorem unmarshal_marshal_ParametersRef (v : ParametersRef) (hv : v.Lossless) :
    unmarshalParametersRef (marshalParametersRef v) = some v := by
  rcases v with ⟨g, k, n, ns⟩
  obtain ⟨h1, h2, h3, h4⟩ := hv
  have e1 := goString_jsonText g h1
  have e2 := goString_jsonText k h2
  have e3 := goString_jsonText n h3
  have e4 := goString_jsonText ns h4
  by_cases hns : ns = [] <;>
    simp [marshalParametersRef, unmarshalParametersRef, emitString, encString, emit, decField,
      getField, stringOf, fieldTag, ParametersRef_Group, ParametersRef_Kind,
      ParametersRef_Name, ParametersRef_Namespace, hns, e1, e2, e3, e4]

theorem sliceOf_ParametersRefs (xs : List ParametersRef) (h : ∀ x ∈ xs, x.Lossless) :
    sliceOf unmarshalParametersRef (.arr (xs.map marshalParametersRef)) = some (some xs) :=
  sliceOf_encSlice unmarshalParametersRef marshalParametersRef (some xs)
    (fun x hx => unmarshal_marshal_ParametersRef x (h x hx))

theorem unmarshal_marshal_PodNetworkSpec (v : PodNetworkSpec) (hv : v.Lossless) :
    unmarshalPodNetworkSpec (marshalPodNetworkSpec v) = some v := by
  rcases v with ⟨e, p, pr⟩
  obtain ⟨hne, hrefs, hpr⟩ := hv
  have e1 := goString_jsonText pr hpr
  rcases p with _ | _ | ⟨x, xs⟩
  · cases e <;> by_cases hp : pr = [] <;>
      simp [marshalPodNetworkSpec, unmarshalPodNetworkSpec, emitBool, emitSlice, emitString,
        encString, emit, emptySlice, encSlice, decField, getField, boolOf, stringOf, fieldTag,
        PodNetworkSpec_Enabled, PodNetworkSpec_ParametersRefs, PodNetworkSpec_Provider, hp, e1]
  · exact absurd rfl hne
  · have key := sliceOf_ParametersRefs (x :: xs) hrefs
    rw [List.map_cons] at key
    cases e <;> by_cases hp : pr = [] <;>
      simp [marshalPodNetworkSpec, unmarshalPodNetworkSpec, emitBool, emitSlice, emitString,
        encString, emit, emptySlice, encSlice, decField, getField, boolOf, stringOf, fieldTag,
        PodNetworkSpec_Enabled, PodNetworkSpec_ParametersRefs, PodNetworkSpec_Provider, hp, e1,
        key]

theorem unmarshal_marshal_PodNetworkAttachmentSpec (v : PodNetworkAttachmentSpec)
    (hv : v.Lossless) :
    unmarshalPodNetworkAttachmentSpec (marshalPodNetworkAttachmentSpec v) = some v := by
  rcases v with ⟨n, p⟩
  obtain ⟨hn, hne, hrefs⟩ := hv
  have e1 := goString_jsonText n hn
  rcases p with _ | _ | ⟨x, xs⟩
  · simp [marshalPodNetworkAttachmentSpec, unmarshalPodNetworkAttachmentSpec, emitSlice,
      emitString, encString, emit, emptySlice, encSlice, decField, getField, stringOf, fieldTag,
      PodNetworkAttachmentSpec_PodNetworkName, PodNetworkAttachmentSpec_ParametersRefs, e1]
  · exact absurd rfl hne
  · have key := sliceOf_ParametersRefs (x :: xs) hrefs
    rw [List.map_cons] at key
    simp [marshalPodNetworkAttachmentSpec, unmarshalPodNetworkAttachmentSpec, emitSlice,
      emitString, encString, emit, emptySlice, encSlice, decField, getField, stringOf, fieldTag,
      PodNetworkAttachmentSpec_PodNetworkName, PodNetworkAttachmentSpec_ParametersRefs, e1, key]

/-! ## Round trips of the records that embed a `metav1` type -/

theorem unmarshal_marshal_ServiceCIDRStatus (M : MetaV1) (v : ServiceCIDRStatus M) (hv : v.Lossless) :
    unmarshalServiceCIDRStatus M (marshalServiceCIDRStatus M v) = some v := by
  rcases v with ⟨c⟩
  have h := decField_emitSlice ServiceCIDRStatus_Conditions M.decCondition M.encCondition c hv.1
    (fun x hx => hv.2 x hx)
  simp [marshalServiceCIDRStatus, unmarshalServiceCIDRStatus, h]

theorem unmarshal_marshal_PodNetworkStatus (M : MetaV1) (v : PodNetworkStatus M) (hv : v.Lossless) :
    unmarshalPodNetworkStatus M (marshalPodNetworkStatus M v) = some v := by
  rcases v with ⟨c⟩
  have h := decField_emitSlice PodNetworkStatus_Conditions M.decCondition M.encCondition c hv.1
    (fun x hx => hv.2 x hx)
  simp [marshalPodNetworkStatus, unmarshalPodNetworkStatus, h]

theorem unmarshal_marshal_PodNetworkAttachmentStatus (M : MetaV1) (v : PodNetworkAttachmentStatus M) (hv : v.Lossless) :
    unmarshalPodNetworkAttachmentStatus M (marshalPodNetworkAttachmentStatus M v) = some v := by
  rcases v with ⟨c⟩
  have h := decField_emitSlice PodNetworkAttachmentStatus_Conditions M.decCondition M.encCondition c hv.1
    (fun x hx => hv.2 x hx)
  simp [marshalPodNetworkAttachmentStatus, unmarshalPodNetworkAttachmentStatus, h]

theorem unmarshal_marshal_IPAddress (M : MetaV1) (v : IPAddress M) (hv : v.Lossless) :
    unmarshalIPAddress M (marshalIPAddress M v) = some v := by
  rcases v with ⟨tm, om, sp⟩
  obtain ⟨htm, hom, hsp⟩ := hv
  have h1 := htm.2 [("metadata", M.encObjectMeta om), ("spec", marshalIPAddressSpec sp)]
    (by simp [reservedNames])
  have h0 : M.decObjectMeta (M.encObjectMeta om) = some om := hom
  have h2 := unmarshal_marshal_IPAddressSpec sp hsp
  simp [marshalIPAddress, unmarshalIPAddress, emitStruct, emit, decField, getField_append, getField,
    fieldTag, IPAddress_ObjectMeta, IPAddress_Spec, h1, h2, h0]

theorem unmarshal_marshal_IPAddressList (M : MetaV1) (v : IPAddressList M) (hv : v.Lossless) :
    unmarshalIPAddressList M (marshalIPAddressList M v) = some v := by
  rcases v with ⟨tm, lm, it⟩
  obtain ⟨htm, hlm, hit⟩ := hv
  have h1 := htm.2 [("metadata", M.encListMeta lm),
    ("items", encSlice (marshalIPAddress M) it)] (by simp [reservedNames])
  have h0 : M.decListMeta (M.encListMeta lm) = some lm := hlm
  have h2 := sliceOf_encSlice (unmarshalIPAddress M) (marshalIPAddress M) it
    (fun x hx => unmarshal_marshal_IPAddress M x (hit x hx))
  simp [marshalIPAddressList, unmarshalIPAddressList, emitStruct, emitSlice, emit, decField,
    getField_append, getField, fieldTag, IPAddressList_ListMeta, IPAddressList_Items, h0, h1, h2]

theorem unmarshal_marshal_ServiceCIDR (M : MetaV1) (v : ServiceCIDR M) (hv : v.Lossless) :
    unmarshalServiceCIDR M (marshalServiceCIDR M v) = some v := by
  rcases v with ⟨tm, om, sp, st⟩
  obtain ⟨htm, hom, hsp, hst⟩ := hv
  have h1 := htm.2 [("metadata", M.encObjectMeta om), ("spec", marshalServiceCIDRSpec sp),
    ("status", marshalServiceCIDRStatus M st)]
    (by simp [reservedNames])
  have h0 : M.decObjectMeta (M.encObjectMeta om) = some om := hom
  have h2 := unmarshal_marshal_ServiceCIDRSpec sp hsp
  have h3 := unmarshal_marshal_ServiceCIDRStatus M st hst
  simp [marshalServiceCIDR, unmarshalServiceCIDR, emitStruct, emit, decField, getField_append, getField,
    fieldTag, ServiceCIDR_ObjectMeta, ServiceCIDR_Spec, ServiceCIDR_Status, h1, h2, h3, h0]

theorem unmarshal_marshal_ServiceCIDRList (M : MetaV1) (v : ServiceCIDRList M) (hv : v.Lossless) :
    unmarshalServiceCIDRList M (marshalServiceCIDRList M v) = some v := by
  rcases v with ⟨tm, lm, it⟩
  obtain ⟨htm, hlm, hit⟩ := hv
  have h1 := htm.2 [("metadata", M.encListMeta lm),
    ("items", encSlice (marshalServiceCIDR M) it)] (by simp [reservedNames])
  have h0 : M.decListMeta (M.encListMeta lm) = some lm := hlm
  have h2 := sliceOf_encSlice (unmarshalServiceCIDR M) (marshalServiceCIDR M) it
    (fun x hx => unmarshal_marshal_ServiceCIDR M x (hit x hx))
  simp [marshalServiceCIDRList, unmarshalServiceCIDRList, emitStruct, emitSlice, emit, decField,
    getField_append, getField, fieldTag, ServiceCIDRList_ListMeta, ServiceCIDRList_Items, h0, h1, h2]

theorem unmarshal_marshal_PodNetwork (M : MetaV1) (v : PodNetwork M) (hv : v.Lossless) :
    unmarshalPodNetwork M (marshalPodNetwork M v) = some v := by
  rcases v with ⟨tm, om, sp, st⟩
  obtain ⟨htm, hom, hsp, hst⟩ := hv
  have h1 := htm.2 [("metadata", M.encObjectMeta om), ("spec", marshalPodNetworkSpec sp),
    ("status", marshalPodNetworkStatus M st)]
    (by simp [reservedNames])
  have h0 : M.decObjectMeta (M.encObjectMeta om) = some om := hom
  have h2 := unmarshal_marshal_PodNetworkSpec sp hsp
  have h3 := unmarshal_marshal_PodNetworkStatus M st hst
  simp [marshalPodNetwork, unmarshalPodNetwork, emitStruct, emit, decField, getField_append, getField,
    fieldTag, PodNetwork_ObjectMeta, PodNetwork_Spec, PodNetwork_Status, h1, h2, h3, h0]

theorem unmarshal_marshal_PodNetworkList (M : MetaV1) (v : PodNetworkList M) (hv : v.Lossless) :
    unmarshalPodNetworkList M (marshalPodNetworkList M v) = some v := by
  rcases v with ⟨tm, lm, it⟩
  obtain ⟨htm, hlm, hit⟩ := hv
  have h1 := htm.2 [("metadata", M.encListMeta lm),
    ("items", encSlice (marshalPodNetwork M) it)] (by simp [reservedNames])
  have h0 : M.decListMeta (M.encListMeta lm) = some lm := hlm
  have h2 := sliceOf_encSlice (unmarshalPodNetwork M) (marshalPodNetwork M) it
    (fun x hx => unmarshal_marshal_PodNetwork M x (hit x hx))
  simp [marshalPodNetworkList, unmarshalPodNetworkList, emitStruct, emitSlice, emit, decField,
    getField_append, getField, fieldTag, PodNetworkList_ListMeta, PodNetworkList_Items, h0, h1, h2]

theorem unmarshal_marshal_PodNetworkAttachment (M : MetaV1) (v : PodNetworkAttachment M) (hv : v.Lossless) :
    unmarshalPodNetworkAttachment M (marshalPodNetworkAttachment M v) = some v := by
  rcases v with ⟨tm, om, sp, st⟩
  obtain ⟨htm, hom, hsp, hst⟩ := hv
  have h1 := htm.2 [("metadata", M.encObjectMeta om), ("spec", marshalPodNetworkAttachmentSpec sp),
    ("status", marshalPodNetworkAttachmentStatus M st)]
    (by simp [reservedNames])
  have h0 : M.decObjectMeta (M.encObjectMeta om) = some om := hom
  have h2 := unmarshal_marshal_PodNetworkAttachmentSpec sp hsp
  have h3 := unmarshal_marshal_PodNetworkAttachmentStatus M st hst
  simp [marshalPodNetworkAttachment, unmarshalPodNetworkAttachment, emitStruct, emit, decField, getField_append, getField,
    fieldTag, PodNetworkAttachment_ObjectMeta, PodNetworkAttachment_Spec, PodNetworkAttachment_Status, h1, h2, h3, h0]

theorem unmarshal_marshal_PodNetworkAttachmentList (M : MetaV1) (v : PodNetworkAttachmentList M) (hv : v.Lossless) :
    unmarshalPodNetworkAttachmentList M (marshalPodNetworkAttachmentList M v) = some v := by
  rcases v with ⟨tm, lm, it⟩
  obtain ⟨htm, hlm, hit⟩ := hv
  have h1 := htm.2 [("metadata", M.encListMeta lm),
    ("items", encSlice (marshalPodNetworkAttachment M) it)] (by simp [reservedNames])
  have h0 : M.decListMeta (M.encListMeta lm) = some lm := hlm
  have h2 := sliceOf_encSlice (unmarshalPodNetworkAttachment M) (marshalPodNetworkAttachment M) it
    (fun x hx => unmarshal_marshal_PodNetworkAttachment M x (hit x hx))
  simp [marshalPodNetworkAttachmentList, unmarshalPodNetworkAttachmentList, emitStruct, emitSlice, emit, decField,
    getField_append, getField, fieldTag, PodNetworkAttachmentList_ListMeta, PodNetworkAttachmentList_Items, h0, h1, h2]

/-! ## The sample instance gives back values whose strings are valid UTF-8 -/

theorem sample_keepsTypeMeta (t : SampleTypeMeta) (h1 : validUTF8 t.Kind = true)
    (h2 : validUTF8 t.APIVersion = true) : sampleMeta.KeepsTypeMeta t := by
  rcases t with ⟨k, a⟩
  constructor
  · intro kv hkv
    have hmem : kv ∈ sampleEncTypeMeta ⟨k, a⟩ := hkv
    by_cases c1 : k = [] <;> by_cases c2 : a = [] <;>
      simp [sampleEncTypeMeta, emitString, emit, fieldTag, Sample_Kind, Sample_APIVersion,
        c1, c2] at hmem <;>
      (try rcases hmem with rfl | rfl) <;> simp [reservedNames]
  intro rest hrest
  have hk : getField rest "kind" = none :=
    getField_eq_none rest "kind" (fun kv hkv heq => by
      have := hrest kv hkv
      rw [heq] at this
      simp [reservedNames] at this)
  have ha : getField rest "apiVersion" = none :=
    getField_eq_none rest "apiVersion" (fun kv hkv heq => by
      have := hrest kv hkv
      rw [heq] at this
      simp [reservedNames] at this)
  have e1 := goString_jsonText k h1
  have e2 := goString_jsonText a h2
  show sampleDecTypeMeta (sampleEncTypeMeta ⟨k, a⟩ ++ rest) = some ⟨k, a⟩
  by_cases c1 : k = [] <;> by_cases c2 : a = [] <;>
    simp [sampleDecTypeMeta, sampleEncTypeMeta, emitString, encString, emit, decField,
      getField_append, getField, stringOf, fieldTag, Sample_Kind, Sample_APIVersion, hk, ha,
      c1, c2, e1, e2]

theorem sample_keepsObjectMeta (m : SampleObjectMeta) (h : validUTF8 m.Name = true) :
    sampleMeta.KeepsObjectMeta m := by
  rcases m with ⟨n⟩
  have e1 := goString_jsonText n h
  show sampleDecObjectMeta (sampleEncObjectMeta ⟨n⟩) = some ⟨n⟩
  by_cases c1 : n = [] <;>
    simp [sampleDecObjectMeta, sampleEncObjectMeta, emitString, encString, emit, decField,
      getField, stringOf, fieldTag, Sample_Name, c1, e1]

theorem sample_keepsListMeta (m : SampleListMeta) (h : validUTF8 m.ResourceVersion = true) :
    sampleMeta.KeepsListMeta m := by
  rcases m with ⟨n⟩
  have e1 := goString_jsonText n h
  show sampleDecListMeta (sampleEncListMeta ⟨n⟩) = some ⟨n⟩
  by_cases c1 : n = [] <;>
    simp [sampleDecListMeta, sampleEncListMeta, emitString, encString, emit, decField,
      getField, stringOf, fieldTag, Sample_ResourceVersion, c1, e1]

theorem sample_keepsCondition (c : SampleCondition) (h1 : validUTF8 c.ConditionType = true)
    (h2 : validUTF8 c.Status = true) : sampleMeta.KeepsCondition c := by
  rcases c with ⟨t, st⟩
  have e1 := goString_jsonText t h1
  have e2 := goString_jsonText st h2
  show sampleDecCondition (sampleEncCondition ⟨t, st⟩) = some ⟨t, st⟩
  simp [sampleDecCondition, sampleEncCondition, emitString, encString, emit, decField,
    getField, stringOf, fieldTag, Sample_ConditionType, Sample_Status, e1, e2]

theorem sampleIPAddress_lossless : sampleIPAddress.Lossless := by
  refine ⟨sample_keepsTypeMeta _ (by decide) (by decide),
    sample_keepsObjectMeta _ (by decide), ?_⟩
  intro p hp
  cases hp
  exact ⟨rfl, rfl, rfl, rfl⟩

theorem samplePodNetwork_lossless : samplePodNetwork.Lossless := by
  refine ⟨sample_keepsTypeMeta _ (by decide) (by decide),
    sample_keepsObjectMeta _ (by decide), ⟨?_, ?_, by decide⟩, ⟨?_, ?_⟩⟩
  · exact fun h => Option.noConfusion h (fun h => List.noConfusion h)
  · intro r hr
    simp only [samplePodNetwork, Option.getD_some, List.mem_singleton] at hr
    subst hr
    exact ⟨by decide, by decide, by decide, by decide⟩
  · exact fun h => Option.noConfusion h (fun h => List.noConfusion h)
  · intro c hc
    simp only [samplePodNetwork, Option.getD_some, List.mem_singleton] at hc
    subst hc
    exact sample_keepsCondition _ (by decide) (by decide)

theorem sampleEmptyPodNetworkList_lossless : sampleEmptyPodNetworkList.Lossless := by
  refine ⟨sample_keepsTypeMeta _ (by decide) (by decide),
    sample_keepsListMeta _ (by decide), ?_⟩
  intro x hx
  simp [sampleEmptyPodNetworkList] at hx

/-! ## C1 — round trip through the JSON wire form -/

/-- C1, as stated, fails, in two ways.  A `ServiceCIDRSpec` whose `cidrs` slice
is empty but non-nil serializes to the empty object (the field is tagged
`omitempty`), and the empty object deserializes to a `ServiceCIDRSpec` whose
`cidrs` is nil.  A `ParentReference` whose name is the byte `0xFF` serializes
with the name U+FFFD, which deserializes to the three bytes `EF BF BD`. -/
theorem roundtrip_loses_empty_slice_and_invalid_utf8 :
    (marshalServiceCIDRSpec ⟨some []⟩ = .obj [] ∧
      unmarshalServiceCIDRSpec (marshalServiceCIDRSpec ⟨some []⟩) = some ⟨none⟩ ∧
      unmarshalServiceCIDRSpec (marshalServiceCIDRSpec ⟨some []⟩) ≠ some ⟨some []⟩) ∧
    (validUTF8 invalidNameParentReference.Name = false ∧
      unmarshalParentReference (marshalParentReference invalidNameParentReference)
        = some ⟨[], [], [], [0xEF, 0xBF, 0xBD]⟩ ∧
      unmarshalParentReference (marshalParentReference invalidNameParentReference)
        ≠ some invalidNameParentReference) := by
  refine ⟨⟨rfl, rfl, ?_⟩, ?_, ?_, ?_⟩ <;> decide

/-- C1, amended: serializing a value of any of the seventeen declared records
and deserializing the result yields the original value, provided that, at every
depth of the value, each string is valid UTF-8, no `omitempty` slice (`cidrs`,
`parametersRefs`, `conditions`) is empty but non-nil, and each embedded
`metav1` value (`TypeMeta`, `ObjectMeta`, `ListMeta`, `Condition`) comes back
from its own codec.  `parentRef` is unrestricted (a non-nil pointer to an
all-empty `ParentReference` comes back as such) and so is `items`. -/
theorem roundtrip_declared_records (M : MetaV1) :
    (∀ v : IPAddress M, v.Lossless →
      unmarshalIPAddress M (marshalIPAddress M v) = some v) ∧
    (∀ v : IPAddressSpec, v.Lossless →
      unmarshalIPAddressSpec (marshalIPAddressSpec v) = some v) ∧
    (∀ v : ParentReference, v.Lossless →
      unmarshalParentReference (marshalParentReference v) = some v) ∧
    (∀ v : ServiceCIDR M, v.Lossless →
      unmarshalServiceCIDR M (marshalServiceCIDR M v) = some v) ∧
    (∀ v : ServiceCIDRSpec, v.Lossless →
      unmarshalServiceCIDRSpec (marshalServiceCIDRSpec v) = some v) ∧
    (∀ v : ServiceCIDRStatus M, v.Lossless →
      unmarshalServiceCIDRStatus M (marshalServiceCIDRStatus M v) = some v) ∧
    (∀ v : PodNetwork M, v.Lossless →
      unmarshalPodNetwork M (marshalPodNetwork M v) = some v) ∧
    (∀ v : PodNetworkSpec, v.Lossless →
      unmarshalPodNetworkSpec (marshalPodNetworkSpec v) = some v) ∧
    (∀ v : ParametersRef, v.Lossless →
      unmarshalParametersRef (marshalParametersRef v) = some v) ∧
    (∀ v : PodNetworkStatus M, v.Lossless →
      unmarshalPodNetworkStatus M (marshalPodNetworkStatus M v) = some v) ∧
    (∀ v : PodNetworkAttachment M, v.Lossless →
      unmarshalPodNetworkAttachment M (marshalPodNetworkAttachment M v) = some v) ∧
    (∀ v : PodNetworkAttachmentSpec, v.Lossless →
      unmarshalPodNetworkAttachmentSpec (marshalPodNetworkAttachmentSpec v) = some v) ∧
    (∀ v : PodNetworkAttachmentStatus M, v.Lossless →
      unmarshalPodNetworkAttachmentStatus M (marshalPodNetworkAttachmentStatus M v) = some v) ∧
    (∀ v : IPAddressList M, v.Lossless →
      unmarshalIPAddressList M (marshalIPAddressList M v) = some v) ∧
    (∀ v : ServiceCIDRList M, v.Lossless →
      unmarshalServiceCIDRList M (marshalServiceCIDRList M v) = some v) ∧
    (∀ v : PodNetworkList M, v.Lossless →
      unmarshalPodNetworkList M (marshalPodNetworkList M v) = some v) ∧
    (∀ v : PodNetworkAttachmentList M, v.Lossless →
      unmarshalPodNetworkAttachmentList M (marshalPodNetworkAttachmentList M v) = some v) :=
  ⟨unmarshal_marshal_IPAddress M,
   unmarshal_marshal_IPAddressSpec,
   unmarshal_marshal_ParentReference,
   unmarshal_marshal_ServiceCIDR M,
   unmarshal_marshal_ServiceCIDRSpec,
   unmarshal_marshal_ServiceCIDRStatus M,
   unmarshal_marshal_PodNetwork M,
   unmarshal_marshal_PodNetworkSpec,
   unmarshal_marshal_ParametersRef,
   unmarshal_marshal_PodNetworkStatus M,
   unmarshal_marshal_PodNetworkAttachment M,
   unmarshal_marshal_PodNetworkAttachmentSpec,
   unmarshal_marshal_PodNetworkAttachmentStatus M,
   unmarshal_marshal_IPAddressList M,
   unmarshal_marshal_ServiceCIDRList M,
   unmarshal_marshal_PodNetworkList M,
   unmarshal_marshal_PodNetworkAttachmentList M⟩

/-- The round trip at concrete values of the sample instance: an `IPAddress`
whose `parentRef` points to an all-empty `ParentReference`, a fully set
`PodNetwork`, and a `PodNetworkList` whose `items` is empty but non-nil. -/
theorem roundtrip_declared_records_witness :
    unmarshalIPAddress sampleMeta (marshalIPAddress sampleMeta sampleIPAddress)
      = some sampleIPAddress ∧
    unmarshalPodNetwork sampleMeta (marshalPodNetwork sampleMeta samplePodNetwork)
      = some samplePodNetwork ∧
    unmarshalPodNetworkList sampleMeta
        (marshalPodNetworkList sampleMeta sampleEmptyPodNetworkList)
      = some sampleEmptyPodNetworkList := by
  obtain ⟨h1, -, -, -, -, -, h7, -, -, -, -, -, -, -, -, h16, -⟩ :=
    roundtrip_declared_records sampleMeta
  exact ⟨h1 _ sampleIPAddress_lossless, h7 _ samplePodNetwork_lossless,
    h16 _ sampleEmptyPodNetworkList_lossless⟩

/-! ## C2 — `enabled` absent from the wire object -/

/-- C2, on the code: whenever a wire object with no `enabled` member
deserializes to a `PodNetworkSpec`, the `Enabled` field of the result is
`false`, the Go zero value, not the documented default `true`. -/
theorem absent_enabled_decodes_false (kvs : List (String × Json)) (s : PodNetworkSpec)
    (habsent : getField kvs "enabled" = none)
    (hdec : unmarshalPodNetworkSpec (.obj kvs) = some s) : s.Enabled = false := by
  have hname : PodNetworkSpec_Enabled.jsonName = "enabled" := rfl
  have he : decField false boolOf kvs PodNetworkSpec_Enabled = some false := by
    simp [decField, hname, habsent]
  simp only [unmarshalPodNetworkSpec, he, bind, pure, Option.bind] at hdec
  cases hp : decField none (sliceOf unmarshalParametersRef) kvs PodNetworkSpec_ParametersRefs
  · rw [hp] at hdec
    exact absurd hdec (by simp)
  · cases hpr : decField [] stringOf kvs PodNetworkSpec_Provider
    · rw [hp, hpr] at hdec
      exact absurd hdec (by simp)
    · rw [hp, hpr] at hdec
      simp only [Option.some.injEq] at hdec
      rw [← hdec]

/-- The empty object, and an object that sets only `provider`, deserialize
with `Enabled = false`. -/
theorem absent_enabled_decodes_false_witness :
    unmarshalPodNetworkSpec (.obj []) = some ⟨false, none, []⟩ ∧
    unmarshalPodNetworkSpec (.obj [("provider", .str "example.com/provider")])
      = some ⟨false, none, goString "example.com/provider"⟩ ∧
    (⟨false, none, goString "example.com/provider"⟩ : PodNetworkSpec).Enabled = false :=
  ⟨by decide, by decide,
   absent_enabled_decodes_false [("provider", .str "example.com/provider")]
     ⟨false, none, goString "example.com/provider"⟩ rfl (by decide)⟩

/-! ## C3 — wire optionality against the documentation markers -/

/-- C3, as stated, fails on both halves.  `ParentReference.Resource` is marked
`+required` yet the all-empty `ParentReference` serializes without a `resource`
member; `IPAddress.Spec` is marked `+optional` and tagged `omitempty` yet the
zero `IPAddress`, whose `Spec` is the empty `IPAddressSpec`, serializes with a
`spec` member. -/
theorem optionality_differs_from_markers :
    (ParentReference_Resource.marker = .required ∧
      (marshalParentReference ParentReference.zero).hasKey "resource" = false) ∧
    (IPAddress_Spec.marker = .optional ∧ IPAddress_Spec.omitempty = true ∧
      (IPAddress.zero sampleMeta).Spec = IPAddressSpec.zero ∧
      (marshalIPAddress sampleMeta (IPAddress.zero sampleMeta)).hasKey "spec" = true) := by
  refine ⟨⟨rfl, ?_⟩, rfl, rfl, rfl, ?_⟩ <;> decide

/-- C3, amended: `PodNetworkAttachmentSpec.PodNetworkName`, the one `+required`
field tagged without `omitempty`, is always present in the serialized object;
every `+optional` field is tagged `omitempty`;
every `+optional` field of string, bool or slice type is omitted when it holds
its empty value (the empty string, `false`, a nil or zero-length slice); every
`+optional` field of struct type (`metadata`, `spec`, `status`) is always
present, since `omitempty` never omits a struct value. -/
theorem optionality_by_tag (M : MetaV1) :
    (allFields.filter (fun f => decide (f.marker = .required) && !f.omitempty)
        = [PodNetworkAttachmentSpec_PodNetworkName] ∧
     allFields.filter (fun f => decide (f.marker = .optional) && !f.omitempty) = []) ∧
    (∀ v : PodNetworkAttachmentSpec,
      (marshalPodNetworkAttachmentSpec v).hasKey
        PodNetworkAttachmentSpec_PodNetworkName.jsonName = true) ∧
    ((∀ v : ParentReference, v.Group = [] →
        (marshalParentReference v).hasKey ParentReference_Group.jsonName = false) ∧
     (∀ v : ParentReference, v.Namespace = [] →
        (marshalParentReference v).hasKey ParentReference_Namespace.jsonName = false) ∧
     (∀ v : ServiceCIDRSpec, emptySlice v.CIDRs = true →
        (marshalServiceCIDRSpec v).hasKey ServiceCIDRSpec_CIDRs.jsonName = false) ∧
     (∀ v : ServiceCIDRStatus M, emptySlice v.Conditions = true →
        (marshalServiceCIDRStatus M v).hasKey ServiceCIDRStatus_Conditions.jsonName = false) ∧
     (∀ v : PodNetworkSpec, v.Enabled = false →
        (marshalPodNetworkSpec v).hasKey PodNetworkSpec_Enabled.jsonName = false) ∧
     (∀ v : PodNetworkSpec, emptySlice v.ParametersRefs = true →
        (marshalPodNetworkSpec v).hasKey PodNetworkSpec_ParametersRefs.jsonName = false) ∧
     (∀ v : PodNetworkSpec, v.Provider = [] →
        (marshalPodNetworkSpec v).hasKey PodNetworkSpec_Provider.jsonName = false) ∧
     (∀ v : ParametersRef, v.Namespace = [] →
        (marshalParametersRef v).hasKey ParametersRef_Namespace.jsonName = false) ∧
     (∀ v : PodNetworkStatus M, emptySlice v.Conditions = true →
        (marshalPodNetworkStatus M v).hasKey PodNetworkStatus_Conditions.jsonName = false) ∧
     (∀ v : PodNetworkAttachmentSpec, emptySlice v.ParametersRefs = true →
        (marshalPodNetworkAttachmentSpec v).hasKey
          PodNetworkAttachmentSpec_ParametersRefs.jsonName = false) ∧
     (∀ v : PodNetworkAttachmentStatus M, emptySlice v.Conditions = true →
        (marshalPodNetworkAttachmentStatus M v).hasKey
          PodNetworkAttachmentStatus_Conditions.jsonName = false)) ∧
    ((∀ v : IPAddress M,
        (marshalIPAddress M v).hasKey IPAddress_ObjectMeta.jsonName = true ∧
        (marshalIPAddress M v).hasKey IPAddress_Spec.jsonName = true) ∧
     (∀ v : ServiceCIDR M,
        (marshalServiceCIDR M v).hasKey ServiceCIDR_ObjectMeta.jsonName = true ∧
        (marshalServiceCIDR M v).hasKey ServiceCIDR_Spec.jsonName = true ∧
        (marshalServiceCIDR M v).hasKey ServiceCIDR_Status.jsonName = true) ∧
     (∀ v : PodNetwork M,
        (marshalPodNetwork M v).hasKey PodNetwork_ObjectMeta.jsonName = true ∧
        (marshalPodNetwork M v).hasKey PodNetwork_Spec.jsonName = true ∧
        (marshalPodNetwork M v).hasKey PodNetwork_Status.jsonName = true) ∧
     (∀ v : PodNetworkAttachment M,
        (marshalPodNetworkAttachment M v).hasKey PodNetworkAttachment_ObjectMeta.jsonName = true ∧
        (marshalPodNetworkAttachment M v).hasKey PodNetworkAttachment_Spec.jsonName = true ∧
        (marshalPodNetworkAttachment M v).hasKey PodNetworkAttachment_Status.jsonName = true) ∧
     (∀ v : IPAddressList M,
        (marshalIPAddressList M v).hasKey IPAddressList_ListMeta.jsonName = true) ∧
     (∀ v : ServiceCIDRList M,
        (marshalServiceCIDRList M v).hasKey ServiceCIDRList_ListMeta.jsonName = true) ∧
     (∀ v : PodNetworkList M,
        (marshalPodNetworkList M v).hasKey PodNetworkList_ListMeta.jsonName = true) ∧
     (∀ v : PodNetworkAttachmentList M,
        (marshalPodNetworkAttachmentList M v).hasKey
          PodNetworkAttachmentList_ListMeta.jsonName = true)) := by
  refine ⟨⟨by decide, by decide⟩, ?_, ⟨?_, ?_, ?_, ?_, ?_, ?_, ?_, ?_, ?_, ?_, ?_⟩,
    ⟨?_, ?_, ?_, ?_, ?_, ?_, ?_, ?_⟩⟩
  · intro v
    cases h : emptySlice v.ParametersRefs <;>
      simp [marshalPodNetworkAttachmentSpec, Json.hasKey, emitString, emitSlice, emit, fieldTag,
        PodNetworkAttachmentSpec_PodNetworkName, PodNetworkAttachmentSpec_ParametersRefs, h]
  · intro v hv
    by_cases h1 : v.Resource = [] <;> by_cases h2 : v.Namespace = [] <;>
      by_cases h3 : v.Name = [] <;>
      simp [marshalParentReference, Json.hasKey, emitString, emit, fieldTag,
        ParentReference_Group, ParentReference_Resource, ParentReference_Namespace,
        ParentReference_Name, hv, h1, h2, h3]
  · intro v hv
    by_cases h1 : v.Resource = [] <;> by_cases h2 : v.Group = [] <;>
      by_cases h3 : v.Name = [] <;>
      simp [marshalParentReference, Json.hasKey, emitString, emit, fieldTag,
        ParentReference_Group, ParentReference_Resource, ParentReference_Namespace,
        ParentReference_Name, hv, h1, h2, h3]
  · intro v hv
    simp [marshalServiceCIDRSpec, Json.hasKey, emitSlice, emit, fieldTag,
      ServiceCIDRSpec_CIDRs, hv]
  · intro v hv
    simp [marshalServiceCIDRStatus, Json.hasKey, emitSlice, emit, conditionsTag,
      ServiceCIDRStatus_Conditions, hv]
  · intro v hv
    cases h1 : emptySlice v.ParametersRefs <;> by_cases h2 : v.Provider = [] <;>
      simp [marshalPodNetworkSpec, Json.hasKey, emitBool, emitSlice, emitString, emit, fieldTag,
        PodNetworkSpec_Enabled, PodNetworkSpec_ParametersRefs, PodNetworkSpec_Provider,
        hv, h1, h2]
  · intro v hv
    cases h1 : v.Enabled <;> by_cases h2 : v.Provider = [] <;>
      simp [marshalPodNetworkSpec, Json.hasKey, emitBool, emitSlice, emitString, emit, fieldTag,
        PodNetworkSpec_Enabled, PodNetworkSpec_ParametersRefs, PodNetworkSpec_Provider,
        hv, h1, h2]
  · intro v hv
    cases h1 : v.Enabled <;> cases h2 : emptySlice v.ParametersRefs <;>
      simp [marshalPodNetworkSpec, Json.hasKey, emitBool, emitSlice, emitString, emit, fieldTag,
        PodNetworkSpec_Enabled, PodNetworkSpec_ParametersRefs, PodNetworkSpec_Provider,
        hv, h1, h2]
  · intro v hv
    simp [marshalParametersRef, Json.hasKey, emitString, emit, fieldTag,
      ParametersRef_Group, ParametersRef_Kind, ParametersRef_Name, ParametersRef_Namespace, hv]
  · intro v hv
    simp [marshalPodNetworkStatus, Json.hasKey, emitSlice, emit, conditionsTag,
      PodNetworkStatus_Conditions, hv]
  · intro v hv
    simp [marshalPodNetworkAttachmentSpec, Json.hasKey, emitString, emitSlice, emit, fieldTag,
      PodNetworkAttachmentSpec_PodNetworkName, PodNetworkAttachmentSpec_ParametersRefs, hv]
  · intro v hv
    simp [marshalPodNetworkAttachmentStatus, Json.hasKey, emitSlice, emit, conditionsTag,
      PodNetworkAttachmentStatus_Conditions, hv]
  · intro v
    simp [marshalIPAddress, Json.hasKey, emitStruct, emit, fieldTag, IPAddress_ObjectMeta,
      IPAddress_Spec]
  · intro v
    simp [marshalServiceCIDR, Json.hasKey, emitStruct, emit, fieldTag, ServiceCIDR_ObjectMeta,
      ServiceCIDR_Spec, ServiceCIDR_Status]
  · intro v
    simp [marshalPodNetwork, Json.hasKey, emitStruct, emit, fieldTag, PodNetwork_ObjectMeta,
      PodNetwork_Spec, PodNetwork_Status]
  · intro v
    simp [marshalPodNetworkAttachment, Json.hasKey, emitStruct, emit, fieldTag,
      PodNetworkAttachment_ObjectMeta, PodNetworkAttachment_Spec, PodNetworkAttachment_Status]
  · intro v
    simp [marshalIPAddressList, Json.hasKey, emitStruct, emit, fieldTag, IPAddressList_ListMeta]
  · intro v
    simp [marshalServiceCIDRList, Json.hasKey, emitStruct, emit, fieldTag,
      ServiceCIDRList_ListMeta]
  · intro v
    simp [marshalPodNetworkList, Json.hasKey, emitStruct, emit, fieldTag,
      PodNetworkList_ListMeta]
  · intro v
    simp [marshalPodNetworkAttachmentList, Json.hasKey, emitStruct, emit, fieldTag,
      PodNetworkAttachmentList_ListMeta]

/-! ## C4 — the condition list of the status records -/

/-- C4: each of the three status records declares exactly one field, its
condition list, under the JSON name `conditions` with patch strategy `merge`
and patch merge key `type`, marked as a list of type `map` keyed by `type`; so
no status record declares another strategy or key.  A non-empty condition list
is serialized under the member name `conditions`. -/
theorem status_conditions_merge_by_type (M : MetaV1) :
    (∀ r ∈ statusRecords, ∃ f, r.fields = [f] ∧ f.goType = "[]metav1.Condition" ∧
        f.jsonName = "conditions" ∧ f.patchStrategy = some "merge" ∧
        f.patchMergeKey = some "type" ∧ f.listType = some "map" ∧
        f.listMapKey = some "type") ∧
    (∀ (c : M.Condition) (cs : List M.Condition),
        (marshalServiceCIDRStatus M ⟨some (c :: cs)⟩).hasKey "conditions" = true ∧
        (marshalPodNetworkStatus M ⟨some (c :: cs)⟩).hasKey "conditions" = true ∧
        (marshalPodNetworkAttachmentStatus M ⟨some (c :: cs)⟩).hasKey "conditions" = true) := by
  constructor
  · intro r hr
    simp only [statusRecords, List.mem_cons, List.mem_singleton, List.not_mem_nil,
      or_false] at hr
    rcases hr with rfl | rfl | rfl
    · exact ⟨ServiceCIDRStatus_Conditions, rfl, rfl, rfl, rfl, rfl, rfl, rfl⟩
    · exact ⟨PodNetworkStatus_Conditions, rfl, rfl, rfl, rfl, rfl, rfl, rfl⟩
    · exact ⟨PodNetworkAttachmentStatus_Conditions, rfl, rfl, rfl, rfl, rfl, rfl, rfl⟩
  · intro c cs
    simp [marshalServiceCIDRStatus, marshalPodNetworkStatus, marshalPodNetworkAttachmentStatus,
      Json.hasKey, emitSlice, emit, emptySlice, conditionsTag, ServiceCIDRStatus_Conditions,
      PodNetworkStatus_Conditions, PodNetworkAttachmentStatus_Conditions]

/-! ## C5 — the list-wrapper pattern -/

/-- C5: each of the four collection types has exactly three fields — the
inlined `metav1.TypeMeta`, a `metav1.ListMeta` under the JSON name `metadata`,
and a slice under the JSON name `items`, tagged without `omitempty` — and the
serialized form of every value of a collection type, a nil or empty `items`
included, has the member `items`. -/
theorem list_wrapper_pattern (M : MetaV1) :
    (∀ r ∈ listRecords, ∃ tm lm it, r.fields = [tm, lm, it] ∧
        tm.inlined = true ∧ tm.goType = "metav1.TypeMeta" ∧
        lm.inlined = false ∧ lm.goType = "metav1.ListMeta" ∧ lm.jsonName = "metadata" ∧
        it.inlined = false ∧ it.jsonName = "items" ∧ it.omitempty = false) ∧
    (declIPAddressList.fields.map (fun f => f.goType)
        = ["metav1.TypeMeta", "metav1.ListMeta", "[]IPAddress"] ∧
     declServiceCIDRList.fields.map (fun f => f.goType)
        = ["metav1.TypeMeta", "metav1.ListMeta", "[]ServiceCIDR"] ∧
     declPodNetworkList.fields.map (fun f => f.goType)
        = ["metav1.TypeMeta", "metav1.ListMeta", "[]PodNetwork"] ∧
     declPodNetworkAttachmentList.fields.map (fun f => f.goType)
        = ["metav1.TypeMeta", "metav1.ListMeta", "[]PodNetworkAttachment"]) ∧
    (∀ v : IPAddressList M, (marshalIPAddressList M v).hasKey "items" = true) ∧
    (∀ v : ServiceCIDRList M, (marshalServiceCIDRList M v).hasKey "items" = true) ∧
    (∀ v : PodNetworkList M, (marshalPodNetworkList M v).hasKey "items" = true) ∧
    (∀ v : PodNetworkAttachmentList M,
        (marshalPodNetworkAttachmentList M v).hasKey "items" = true) := by
  refine ⟨?_, ⟨rfl, rfl, rfl, rfl⟩, ?_, ?_, ?_, ?_⟩
  · intro r hr
    simp only [listRecords, List.mem_cons, List.mem_singleton, List.not_mem_nil,
      or_false] at hr
    rcases hr with rfl | rfl | rfl | rfl
    · exact ⟨_, _, _, rfl, rfl, rfl, rfl, rfl, rfl, rfl, rfl, rfl⟩
    · exact ⟨_, _, _, rfl, rfl, rfl, rfl, rfl, rfl, rfl, rfl, rfl⟩
    · exact ⟨_, _, _, rfl, rfl, rfl, rfl, rfl, rfl, rfl, rfl, rfl⟩
    · exact ⟨_, _, _, rfl, rfl, rfl, rfl, rfl, rfl, rfl, rfl, rfl⟩
  · intro v
    simp [marshalIPAddressList, Json.hasKey, emitSlice, emit, fieldTag, IPAddressList_Items]
  · intro v
    simp [marshalServiceCIDRList, Json.hasKey, emitSlice, emit, fieldTag, ServiceCIDRList_Items]
  · intro v
    simp [marshalPodNetworkList, Json.hasKey, emitSlice, emit, fieldTag, PodNetworkList_Items]
  · intro v
    simp [marshalPodNetworkAttachmentList, Json.hasKey, emitSlice, emit, fieldTag,
      PodNetworkAttachmentList_Items]

/-! ## C6 — the number of CIDR blocks -/

/-- C6, as stated, fails: a wire object whose `cidrs` array has three entries
deserializes to a `ServiceCIDRSpec` that carries all three. -/
theorem three_cidrs_are_accepted :
    unmarshalServiceCIDRSpec
        (.obj [("cidrs", .arr [.str "10.0.0.0/24", .str "fd00::/64", .str "192.168.0.0/16"])])
      = some ⟨some [goString "10.0.0.0/24", goString "fd00::/64", goString "192.168.0.0/16"]⟩ ∧
    [goString "10.0.0.0/24", goString "fd00::/64", goString "192.168.0.0/16"].length = 3 := by
  constructor <;> decide

/-- C6, amended: deserialization puts no bound on the number of CIDR blocks; a
wire object whose `cidrs` array holds any list of strings deserializes to the
`ServiceCIDRSpec` carrying that whole list, in order. -/
theorem cidrs_of_any_length_are_accepted (xs : List String) :
    unmarshalServiceCIDRSpec (.obj [("cidrs", .arr (xs.map Json.str))])
      = some ⟨some (xs.map goString)⟩ := by
  have h := decList_stringOf_str xs
  simp [unmarshalServiceCIDRSpec, decField, getField, sliceOf, fieldTag, ServiceCIDRSpec_CIDRs, h]

/-! ## C7 — `PodNetworkAttachmentStatus` against `PodNetworkStatus` -/

/-- C7: for every condition list `c`, a `PodNetworkStatus` holding `c` and a
`PodNetworkAttachmentStatus` holding `c` serialize to the same wire object, and
the two records declare their one field identically: same Go name and type,
same JSON name, same `omitempty`, same `+optional` marker, same patch strategy
and merge key, same protobuf tag. -/
theorem attachment_status_same_condition_contract (M : MetaV1)
    (c : Option (List M.Condition)) :
    marshalPodNetworkStatus M ⟨c⟩ = marshalPodNetworkAttachmentStatus M ⟨c⟩ ∧
    PodNetworkStatus_Conditions = PodNetworkAttachmentStatus_Conditions ∧
    declPodNetworkStatus.fields = [PodNetworkStatus_Conditions] ∧
    declPodNetworkAttachmentStatus.fields = [PodNetworkAttachmentStatus_Conditions] ∧
    PodNetworkStatus_Conditions.jsonName = PodNetworkAttachmentStatus_Conditions.jsonName ∧
    PodNetworkStatus_Conditions.omitempty = PodNetworkAttachmentStatus_Conditions.omitempty ∧
    PodNetworkStatus_Conditions.marker = PodNetworkAttachmentStatus_Conditions.marker ∧
    PodNetworkStatus_Conditions.patchStrategy
      = PodNetworkAttachmentStatus_Conditions.patchStrategy ∧
    PodNetworkStatus_Conditions.patchMergeKey
      = PodNetworkAttachmentStatus_Conditions.patchMergeKey ∧
    PodNetworkStatus_Conditions.protobuf = PodNetworkAttachmentStatus_Conditions.protobuf ∧
    PodNetworkStatus_Conditions.protobuf = some ⟨"bytes", 1, "req", "conditions"⟩ :=
  ⟨rfl, rfl, rfl, rfl, rfl, rfl, rfl, rfl, rfl, rfl, rfl⟩

/-! ## C8 — when `enabled` is on the wire -/

/-- C8: the serialized form of a `PodNetworkSpec` has the member `enabled`
exactly when `Enabled` is true; so a spec with `Enabled` set to false and a
spec whose `Enabled` was left at the Go zero value serialize to the same wire
object, for equal `parametersRefs` and `provider`. -/
theorem enabled_key_iff_true (s : PodNetworkSpec) :
    ((marshalPodNetworkSpec s).hasKey "enabled" = true ↔ s.Enabled = true) ∧
    marshalPodNetworkSpec ⟨false, s.ParametersRefs, s.Provider⟩
      = marshalPodNetworkSpec
          ⟨PodNetworkSpec.zero.Enabled, s.ParametersRefs, s.Provider⟩ := by
  refine ⟨?_, rfl⟩
  rcases s with ⟨e, p, pr⟩
  cases e <;> cases h1 : emptySlice p <;> by_cases h2 : pr = [] <;>
    simp [marshalPodNetworkSpec, Json.hasKey, emitBool, emitSlice, emitString, emit, fieldTag,
      PodNetworkSpec_Enabled, PodNetworkSpec_ParametersRefs, PodNetworkSpec_Provider, h1, h2]

/-! ## C9 — the tags of a record do not collide -/

/-- C9: in every declared record the JSON names of the fields are pairwise
distinct, the protobuf field numbers are pairwise distinct and are exactly the
numbers 1 to n, n being the number of fields that carry a protobuf tag, and
the name in each protobuf tag is the field's JSON name. -/
theorem wire_tags_unambiguous (r : RecordDecl) (hr : r ∈ declaredRecords) :
    r.jsonNames.Nodup ∧
    r.protoNumbers.Nodup ∧
    (∀ k, k ∈ r.protoNumbers ↔ 1 ≤ k ∧ k ≤ r.protoTags.length) ∧
    (∀ f ∈ r.fields, ∀ p, f.protobuf = some p → p.name = f.jsonName) := by
  have hnum : r.jsonNames.Nodup ∧ r.protoNumbers = List.range' 1 r.protoTags.length ∧
      (∀ f ∈ r.fields, ∀ p, f.protobuf = some p → p.name = f.jsonName) := by
    simp only [declaredRecords, List.mem_cons, List.mem_singleton, List.not_mem_nil,
      or_false] at hr
    rcases hr with rfl | rfl | rfl | rfl | rfl | rfl | rfl | rfl | rfl | rfl | rfl | rfl |
      rfl | rfl | rfl | rfl | rfl <;>
    refine ⟨by decide, by decide, ?_⟩ <;>
    · intro f hf p hp
      simp only [declIPAddress, declIPAddressSpec, declParentReference, declIPAddressList,
        declServiceCIDR, declServiceCIDRSpec, declServiceCIDRStatus, declServiceCIDRList,
        declPodNetwork, declPodNetworkSpec, declParametersRef, declPodNetworkStatus,
        declPodNetworkList, declPodNetworkAttachment, declPodNetworkAttachmentSpec,
        declPodNetworkAttachmentStatus, declPodNetworkAttachmentList,
        List.mem_cons, List.mem_singleton, List.not_mem_nil, or_false] at hf
      rcases hf with rfl | rfl | rfl | rfl <;> first
        | (cases hp; rfl)
        | (exact absurd hp (fun h => Option.noConfusion h))
  obtain ⟨h1, h2, h3⟩ := hnum
  refine ⟨h1, ?_, ?_, h3⟩
  · rw [h2]
    exact List.nodup_range' 1 _
  · intro k
    rw [h2, List.mem_range'_1]
    omega

/-- The tags of `ParametersRef`: names `group`, `kind`, `name`, `namespace`,
numbers 1 to 4. -/
theorem wire_tags_unambiguous_witness :
    declParametersRef ∈ declaredRecords ∧
    declParametersRef.jsonNames = ["group", "kind", "name", "namespace"] ∧
    declParametersRef.protoNumbers = [1, 2, 3, 4] ∧
    declParametersRef.jsonNames.Nodup ∧
    declParametersRef.protoNumbers.Nodup ∧
    (∀ k, k ∈ declParametersRef.protoNumbers ↔ 1 ≤ k ∧ k ≤ declParametersRef.protoTags.length) :=
  have h := wire_tags_unambiguous declParametersRef (by decide)
  ⟨by decide, rfl, rfl, h.1, h.2.1, h.2.2.1⟩

end NetworkingV1alpha1
